import Mathlib

/-!
# Paycheck — verification of the license issuance and verification pipeline

A shallow embedding of the Paycheck licensing service (Rust) into Lean 4.
Rows of the embedded SQLite store are modelled as lists of structures; each
query function from `src/db/queries.rs` becomes a Lean function on a `Db`
state; each HTTP handler becomes a state transformer returning the new state
together with its result.  Timestamps are `Int` seconds, matching the i64
timestamps of the source; row counts are `i32` in the source and are compared
here as `Int` (no overflow is reachable for the quantities involved).

Fresh values the source draws from the environment (`now()`, `gen_id()`,
`Uuid::new_v4()`, random license keys) are passed in as explicit parameters.
A transaction that errors out is modelled by returning the *unchanged* input
state together with the error, mirroring the rollback of the dropped
transaction.
-/

/-- `models/device.rs`: device type discriminator (`uuid` | `machine`). -/
inductive DeviceType where
  | Uuid
  | Machine
deriving DecidableEq

/-- `models/device.rs` / `DeviceType::from_str`: parse the wire string. -/
def DeviceType.from_str : String → Option DeviceType
  | "uuid" => some .Uuid
  | "machine" => some .Machine
  | _ => none

/-- `models/device.rs`: a Device row.  `jti` is the latest token identifier. -/
structure Device where
  id : String
  license_id : String
  device_id : String
  device_type : DeviceType
  name : Option String
  jti : String
  activated_at : Int
  last_seen_at : Int
deriving DecidableEq

/-- `models/license.rs` / `queries.rs` LICENSE_COLS: a License row.
(`key` is the user-facing license key; `validate.rs` reaches the row through
`license_key_id`, the same `id` field.) -/
structure License where
  id : String
  key : String
  email_hash : Option String
  project_id : String
  product_id : String
  customer_id : Option String
  activation_count : Int
  revoked : Bool
  revoked_jtis : List String
  created_at : Int
  expires_at : Option Int
  updates_expires_at : Option Int
  payment_provider : Option String
  payment_provider_customer_id : Option String
  payment_provider_subscription_id : Option String
  payment_provider_order_id : Option String
deriving DecidableEq

/-- `models/product.rs`: a Product row (payment-provider columns elided). -/
structure Product where
  id : String
  project_id : String
  name : String
  tier : String
  license_exp_days : Option Int
  updates_exp_days : Option Int
  activation_limit : Int
  device_limit : Int
  features : List String
  created_at : Int
deriving DecidableEq

/-- A Project row; only the fields the verified handlers read.
`stripe_configured` stands for `project.stripe_config.is_some()`. -/
structure Project where
  id : String
  org_id : String
  email_enabled : Bool
  email_webhook_url : Option String
  email_from : Option String
  stripe_configured : Bool
deriving DecidableEq

/-- A PaymentSession row (union of the fields used by `queries.rs`,
`stripe.rs` and `callback.rs`; `callback.rs` names the license reference
`license_key_id`, `queries.rs` names it `license_id`). -/
structure PaymentSession where
  id : String
  product_id : String
  customer_id : Option String
  device_id : String
  device_type : DeviceType
  redirect_url : Option String
  created_at : Int
  completed : Bool
  license_id : Option String
deriving DecidableEq

/-- A WebhookEvent row — the idempotency anchor, unique on
`(provider, event_id)`. -/
structure WebhookEvent where
  id : String
  provider : String
  event_id : String
  created_at : Int
deriving DecidableEq

/-- `models/license.rs`: a RedemptionCode row (stored hashed in the source;
the hash function is irrelevant to the verified claims). -/
structure RedemptionCode where
  id : String
  code : String
  license_key_id : String
  expires_at : Int
  used : Bool
  created_at : Int
deriving DecidableEq

/-- The operational store: one list per table. -/
structure Db where
  licenses : List License
  devices : List Device
  products : List Product
  projects : List Project
  payment_sessions : List PaymentSession
  webhook_events : List WebhookEvent
  redemption_codes : List RedemptionCode
deriving DecidableEq

/-- `error.rs` AppError, restricted to the kinds the verified handlers
produce.  Message formatting (interpolated counts) is elided; the constant
prefix of each message is kept so the error kinds stay distinguishable. -/
inductive AppError where
  | NotFound (msg : String)
  | Forbidden (msg : String)
  | BadRequest (msg : String)
  | Internal (msg : String)
deriving DecidableEq

deriving instance DecidableEq for Except

/-- `queries.rs`: result of attempting to acquire a device for a license. -/
inductive DeviceAcquisitionResult where
  | Existing (d : Device)
  | Created (d : Device)
deriving DecidableEq

-- ============ queries.rs: row lookups ============

/-- `queries.rs::get_device_for_license`: Device by `(license_id, device_id)`. -/
def get_device_for_license (db : Db) (license_id device_id : String) : Option Device :=
  db.devices.find? (fun d => d.license_id == license_id && d.device_id == device_id)

/-- `queries.rs::get_device_by_jti`: Device by `jti`. -/
def get_device_by_jti (db : Db) (jti : String) : Option Device :=
  db.devices.find? (fun d => d.jti == jti)

/-- `queries.rs::count_devices_for_license`: `COUNT(*)` over the license's
Device rows. -/
def count_devices_for_license (db : Db) (license_id : String) : Nat :=
  (db.devices.filter (fun d => d.license_id == license_id)).length

/-- `queries.rs::get_license_by_id`: License by `id`. -/
def get_license_by_id (db : Db) (id : String) : Option License :=
  db.licenses.find? (fun l => l.id == id)

/-- Modelled from the spec: `get_license_key_by_id` is called by the handlers
but absent from `src/db/queries.rs`; per the spec it is the plain row lookup
by primary key (the master key argument only decrypts envelope blobs and does
not affect which row is returned). -/
def get_license_key_by_id (db : Db) (id : String) : Option License :=
  db.licenses.find? (fun l => l.id == id)

/-- Modelled from the spec: `get_license_key_by_key` is called by the handlers
but absent from `src/db/queries.rs`; per the spec (§6 credential format) it is
the row lookup by the user-facing license key. -/
def get_license_key_by_key (db : Db) (key : String) : Option License :=
  db.licenses.find? (fun l => l.key == key)

/-- `queries.rs::get_product_by_id`: Product by `id`. -/
def get_product_by_id (db : Db) (id : String) : Option Product :=
  db.products.find? (fun p => p.id == id)

/-- `queries.rs::get_project_by_id`: Project by `id`. -/
def get_project_by_id (db : Db) (id : String) : Option Project :=
  db.projects.find? (fun p => p.id == id)

/-- `queries.rs::get_payment_session`: PaymentSession by `id`. -/
def get_payment_session (db : Db) (id : String) : Option PaymentSession :=
  db.payment_sessions.find? (fun s => s.id == id)

-- ============ queries.rs: mutations ============

/-- `queries.rs::update_device_jti`:
`UPDATE devices SET jti = ?, last_seen_at = now WHERE id = ?`. -/
def update_device_jti (db : Db) (id jti : String) (tNow : Int) : Db :=
  { db with devices := db.devices.map (fun d =>
      if d.id == id then { d with jti := jti, last_seen_at := tNow } else d) }

/-- `queries.rs::update_device_last_seen`:
`UPDATE devices SET last_seen_at = now WHERE id = ?`. -/
def update_device_last_seen (db : Db) (id : String) (tNow : Int) : Db :=
  { db with devices := db.devices.map (fun d =>
      if d.id == id then { d with last_seen_at := tNow } else d) }

/-- `queries.rs::create_device`: insert one Device row (the fresh row id is
`gen_id()` in the source, passed here as `freshId`). -/
def create_device (db : Db) (license_id device_id : String) (device_type : DeviceType)
    (jti : String) (name : Option String) (tNow : Int) (freshId : String) : Db × Device :=
  let d : Device :=
    { id := freshId, license_id := license_id, device_id := device_id,
      device_type := device_type, name := name, jti := jti,
      activated_at := tNow, last_seen_at := tNow }
  ({ db with devices := db.devices ++ [d] }, d)

/-- `queries.rs::increment_activation_count`:
`UPDATE licenses SET activation_count = activation_count + 1 WHERE id = ?`. -/
def increment_activation_count (db : Db) (id : String) : Db :=
  { db with licenses := db.licenses.map (fun l =>
      if l.id == id then { l with activation_count := l.activation_count + 1 } else l) }

/-- `queries.rs::add_revoked_jti`: read the License row, push `jti` onto its
`revoked_jtis`, write the serialized list back
(`UPDATE licenses SET revoked_jtis = ? WHERE id = ?`). -/
def add_revoked_jti (db : Db) (license_id jti : String) : Except AppError Db :=
  match get_license_by_id db license_id with
  | none => .error (.NotFound "License not found")
  | some l0 =>
      .ok { db with licenses := db.licenses.map (fun l =>
        if l.id == license_id
        then { l with revoked_jtis := l0.revoked_jtis ++ [jti] }
        else l) }

/-- Modelled from the spec: `delete_device_by_device_id` is called by
`deactivate_device` but absent from `src/db/queries.rs`; per the spec (§4.6
remote deactivation, "then delete the Device row") it deletes the Device row
keyed on `(license_id, device_id)`. -/
def delete_device_by_device_id (db : Db) (license_id device_id : String) : Db :=
  { db with devices := db.devices.filter (fun d =>
      !(d.license_id == license_id && d.device_id == device_id)) }

-- ============ queries.rs: acquire_device_atomic ============

/-- `queries.rs::acquire_device_atomic`: atomically grant, renew or reject an
activation inside an IMMEDIATE (write-locking) transaction.  An error return
drops the transaction, so the unchanged input state is returned with it. -/
def acquire_device_atomic (db : Db) (license_id device_id : String)
    (device_type : DeviceType) (jti : String) (name : Option String)
    (device_limit activation_limit : Int) (tNow : Int) (freshId : String) :
    Db × Except AppError DeviceAcquisitionResult :=
  match get_device_for_license db license_id device_id with
  | some device =>
      (update_device_jti db device.id jti tNow,
       .ok (.Existing { device with jti := jti, last_seen_at := tNow }))
  | none =>
      let current_device_count : Int := count_devices_for_license db license_id
      if device_limit > 0 ∧ current_device_count ≥ device_limit then
        (db, .error (.Forbidden "Device limit reached"))
      else
        match get_license_by_id db license_id with
        | none => (db, .error (.Internal "query returned no rows"))
        | some license =>
            if activation_limit > 0 ∧ license.activation_count ≥ activation_limit then
              (db, .error (.Forbidden "Activation limit reached"))
            else
              let inserted := create_device db license_id device_id device_type jti name tNow freshId
              (increment_activation_count inserted.1 license_id, .ok (.Created inserted.2))

-- ============ util.rs ============

/-- `util.rs::LicenseExpirations`. -/
structure LicenseExpirations where
  license_exp : Option Int
  updates_exp : Option Int
deriving DecidableEq

/-- `util.rs::LicenseExpirations::from_days`:
`base_time + days * 86400` per bounded field. -/
def LicenseExpirations.from_days (license_days updates_days : Option Int)
    (base_time : Int) : LicenseExpirations :=
  { license_exp := license_days.map (fun days => base_time + days * 86400),
    updates_exp := updates_days.map (fun days => base_time + days * 86400) }

/-- `util.rs::LicenseExpirations::from_product`. -/
def LicenseExpirations.from_product (product : Product) (base_time : Int) :
    LicenseExpirations :=
  LicenseExpirations.from_days product.license_exp_days product.updates_exp_days base_time

-- ============ handlers/public/validate.rs ============

/-- `validate.rs::ValidateQuery`. -/
structure ValidateQuery where
  project_id : String
  jti : String
deriving DecidableEq

/-- `validate.rs::ValidateResponse`. -/
structure ValidateResponse where
  valid : Bool
  reason : Option String
  license_exp : Option Int
  updates_exp : Option Int
deriving DecidableEq

/-- `validate.rs`: the anonymous failure body
`{valid: false, reason: null}` (the two expiration fields are `None` and are
skipped by serialization). -/
def invalid_response : ValidateResponse :=
  { valid := false, reason := none, license_exp := none, updates_exp := none }

/-- The `if let Some(expires_at) = … && now > expires_at` idiom shared by
`validate.rs` and `redeem.rs`: an optional expiration has passed. -/
def expiry_passed (expires_at : Option Int) (tNow : Int) : Bool :=
  match expires_at with
  | some e => decide (tNow > e)
  | none => false

/-- `validate.rs::validate_license`: check a token's `jti`; every failure mode
answers with `invalid_response`, a missing Product surfaces as `Internal`.
`last_seen_at` is updated before the final product-derived expiration check,
exactly as in the source. -/
def validate_license (db : Db) (query : ValidateQuery) (tNow : Int) :
    Db × Except AppError ValidateResponse :=
  match get_device_by_jti db query.jti with
  | none => (db, .ok invalid_response)
  | some device =>
    match get_license_key_by_id db device.license_id with
    | none => (db, .ok invalid_response)
    | some license =>
      if license.revoked then (db, .ok invalid_response)
      else if license.revoked_jtis.contains query.jti then (db, .ok invalid_response)
      else if expiry_passed license.expires_at tNow then (db, .ok invalid_response)
      else
        match get_product_by_id db license.product_id with
        | none => (db, .error (.Internal "Product not found"))
        | some product =>
          if product.project_id ≠ query.project_id then (db, .ok invalid_response)
          else
            let db' := update_device_last_seen db device.id tNow
            let exps := LicenseExpirations.from_product product device.activated_at
            if expiry_passed exps.license_exp tNow then (db', .ok invalid_response)
            else
              (db', .ok { valid := true, reason := none,
                          license_exp := exps.license_exp,
                          updates_exp := exps.updates_exp })

-- ============ handlers/public/redeem.rs ============

/-- `redeem.rs::RedeemQuery`. -/
structure RedeemQuery where
  project_id : String
  key : String
  device_id : String
  device_type : String
  device_name : Option String
deriving DecidableEq

/-- `redeem.rs::RedeemResponse`. -/
structure RedeemResponse where
  token : String
  license_exp : Option Int
  updates_exp : Option Int
  tier : String
  features : List String
deriving DecidableEq

/-- `redeem.rs::redeem_license`: key-based redemption.  The JWT signature
(`jwt::sign_claims`) happens before any write; `sign_ok = false` models its
failure, which aborts the handler with no state change.  `jti`, `freshId` and
`token` stand for the freshly generated UUID jti, device row id and signed
token. -/
def redeem_license (db : Db) (query : RedeemQuery) (tNow : Int)
    (jti freshId token : String) (sign_ok : Bool) :
    Db × Except AppError RedeemResponse :=
  match DeviceType.from_str query.device_type with
  | none => (db, .error (.BadRequest "Invalid device_type"))
  | some device_type =>
    match get_license_key_by_key db query.key with
    | none => (db, .error (.NotFound "License key not found"))
    | some license =>
      if license.revoked then (db, .error (.Forbidden "License has been revoked"))
      else if expiry_passed license.expires_at tNow then
        (db, .error (.Forbidden "License has expired"))
      else
        match get_product_by_id db license.product_id with
        | none => (db, .error (.Internal "Product not found"))
        | some product =>
          if product.project_id ≠ query.project_id then
            (db, .error (.NotFound "License key not found"))
          else
            match get_project_by_id db query.project_id with
            | none => (db, .error (.Internal "Project not found"))
            | some _project =>
              let current_device_count : Int := count_devices_for_license db license.id
              let existing_device := get_device_for_license db license.id query.device_id
              if existing_device = none ∧ product.device_limit > 0 ∧
                  current_device_count ≥ product.device_limit then
                (db, .error (.Forbidden "Device limit reached"))
              else if existing_device = none ∧ product.activation_limit > 0 ∧
                  license.activation_count ≥ product.activation_limit then
                (db, .error (.Forbidden "Activation limit reached"))
              else
                let license_exp := product.license_exp_days.map (fun days => tNow + days * 86400)
                let updates_exp := product.updates_exp_days.map (fun days => tNow + days * 86400)
                if !sign_ok then (db, .error (.Internal "signing failed"))
                else
                  let db' :=
                    match existing_device with
                    | some existing => update_device_jti db existing.id jti tNow
                    | none =>
                        let inserted := create_device db license.id query.device_id
                          device_type jti query.device_name tNow freshId
                        increment_activation_count inserted.1 license.id
                  (db', .ok { token := token, license_exp := license_exp,
                              updates_exp := updates_exp, tier := product.tier,
                              features := product.features })

-- ============ handlers/public/devices.rs ============

/-- `devices.rs::DeactivateRequest`. -/
structure DeactivateRequest where
  project_id : String
  key : String
  device_id : String
deriving DecidableEq

/-- `devices.rs::DeactivateResponse`. -/
structure DeactivateResponse where
  deactivated : Bool
  remaining_devices : Int
deriving DecidableEq

/-- `devices.rs::deactivate_device`: append the device's current `jti` to the
license's `revoked_jtis`, then delete the Device row; `activation_count` is
not touched. -/
def deactivate_device (db : Db) (request : DeactivateRequest) :
    Db × Except AppError DeactivateResponse :=
  match get_license_key_by_key db request.key with
  | none => (db, .error (.NotFound "License key not found"))
  | some license =>
    match get_product_by_id db license.product_id with
    | none => (db, .error (.Internal "Product not found"))
    | some product =>
      if product.project_id ≠ request.project_id then
        (db, .error (.NotFound "License key not found"))
      else
        match get_device_for_license db license.id request.device_id with
        | none => (db, .error (.NotFound "Device not found"))
        | some device =>
          match add_revoked_jti db license.id device.jti with
          | .error e => (db, .error e)
          | .ok db1 =>
            let db2 := delete_device_by_device_id db1 license.id request.device_id
            let remaining : Int := count_devices_for_license db2 license.id
            (db2, .ok { deactivated := true, remaining_devices := remaining })

-- ============ handlers/public/callback.rs ============

/-- `callback.rs::CallbackQuery`. -/
structure CallbackQuery where
  session : String
deriving DecidableEq

/-- `callback.rs::append_query_params`: URL-encode each value, join the pairs
with `&`, attach with `?` or `&` depending on whether the base already has a
query string.  `encode` stands for the external `urlencoding::encode`. -/
def append_query_params (encode : String → String) (base_url : String)
    (params : List (String × String)) : String :=
  let query_string := String.intercalate "&"
    (params.map (fun kv => kv.1 ++ "=" ++ encode kv.2))
  if base_url.contains '?' then base_url ++ "&" ++ query_string
  else base_url ++ "?" ++ query_string

/-- Modelled from the spec: `create_redemption_code` is called by
`payment_callback` but absent from `src/db/queries.rs`; per the spec (§4.7) it
mints a short-lived one-shot RedemptionCode with a 30-minute TTL (stored
hashed; the plaintext `freshCode` is returned once). -/
def create_redemption_code (db : Db) (license_id : String)
    (tNow : Int) (freshId freshCode : String) : Db × RedemptionCode :=
  let rc : RedemptionCode :=
    { id := freshId, code := freshCode, license_key_id := license_id,
      expires_at := tNow + 30 * 60, used := false, created_at := tNow }
  ({ db with redemption_codes := db.redemption_codes ++ [rc] }, rc)

/-- `callback.rs::payment_callback`: handle `GET /callback?session=…` and
answer with an HTTP 307 redirect URL.  `success_page_url` is the app-level
default success page. -/
def payment_callback (db : Db) (success_page_url : String) (query : CallbackQuery)
    (tNow : Int) (freshId freshCode : String) (encode : String → String) :
    Db × Except AppError String :=
  match get_payment_session db query.session with
  | none => (db, .error (.NotFound "Session not found"))
  | some session =>
    let base_redirect := session.redirect_url.getD success_page_url
    if !session.completed then
      (db, .ok (append_query_params encode base_redirect
        [("session", query.session), ("status", "pending")]))
    else
      match get_product_by_id db session.product_id with
      | none => (db, .error (.Internal "Product not found"))
      | some product =>
        match session.license_id with
        | none => (db, .error (.Internal "License not found - payment may still be processing"))
        | some license_id =>
          match get_license_key_by_id db license_id with
          | none => (db, .error (.Internal "License not found"))
          | some license =>
            let minted := create_redemption_code db license.id tNow freshId freshCode
            let url :=
              if session.redirect_url.isSome then
                append_query_params encode base_redirect
                  [("code", minted.2.code),
                   ("project_id", product.project_id),
                   ("status", "success")]
              else
                append_query_params encode base_redirect
                  [("license_key", license.key),
                   ("code", minted.2.code),
                   ("project_id", product.project_id),
                   ("status", "success")]
            (minted.1, .ok url)

-- ============ handlers/webhooks/stripe.rs ============

/-- `payments/mod.rs` StripeCheckoutSession metadata (`paycheck_session_id`,
`project_id`). -/
structure StripeCheckoutMeta where
  paycheck_session_id : Option String
  project_id : Option String
deriving DecidableEq

/-- `payments/mod.rs` StripeCheckoutSession: the fields
`handle_checkout_completed` reads. -/
structure StripeCheckoutSession where
  metadata : StripeCheckoutMeta
  payment_status : String
  customer_email : Option String
  customer : Option String
  subscription : Option String
deriving DecidableEq

/-- Modelled from the spec: `create_license_key` is called by
`handle_checkout_completed` but absent from `src/db/queries.rs`; per the spec
(§3 License, I2) and the sibling `queries.rs::create_license` it inserts one
License row with `activation_count = 0`, `revoked = false`, empty
`revoked_jtis`, the given expirations and provider references, and a freshly
generated key carrying the project's prefix (`freshKey`). -/
def create_license_key (db : Db) (product_id : String) (input_expires_at
    input_updates_expires_at : Option Int) (payment_provider
    payment_provider_customer_id payment_provider_subscription_id : Option String)
    (project_id : String) (tNow : Int) (freshId freshKey : String) : Db × License :=
  let l : License :=
    { id := freshId, key := freshKey, email_hash := none, project_id := project_id,
      product_id := product_id, customer_id := none, activation_count := 0,
      revoked := false, revoked_jtis := [], created_at := tNow,
      expires_at := input_expires_at, updates_expires_at := input_updates_expires_at,
      payment_provider := payment_provider,
      payment_provider_customer_id := payment_provider_customer_id,
      payment_provider_subscription_id := payment_provider_subscription_id,
      payment_provider_order_id := none }
  ({ db with licenses := db.licenses ++ [l] }, l)

/-- Modelled from the spec: `mark_payment_session_completed` is called by the
webhook handlers but absent from `src/db/queries.rs`; its signature takes only
the session id, so per the spec (§4.7, "sets completed = 1") it can only set
the `completed` flag — it cannot write a `license_id`. -/
def mark_payment_session_completed (db : Db) (id : String) : Db :=
  { db with payment_sessions := db.payment_sessions.map (fun s =>
      if s.id == id then { s with completed := true } else s) }

/-- `stripe.rs::handle_checkout_completed`: process a
`checkout.session.completed` event.  `sig_valid` is the outcome of
`verify_webhook_signature`; `inc_fails` / `mark_fails` model storage failures
of `increment_activation_count` / `mark_payment_session_completed`, which the
source only logs (`if let Err(e) = … { tracing::error!(…) }`).  Returns the
new state with the HTTP status code and body. -/
def handle_checkout_completed (db : Db) (session : StripeCheckoutSession)
    (sig_valid : Bool) (tNow : Int)
    (freshLicenseId freshLicenseKey freshDeviceId freshJti : String)
    (inc_fails mark_fails : Bool) : Db × Nat × String :=
  match session.metadata.paycheck_session_id with
  | none => (db, 200, "No paycheck session ID")
  | some paycheck_session_id =>
    match session.metadata.project_id with
    | none => (db, 200, "No project ID")
    | some project_id =>
      match get_project_by_id db project_id with
      | none => (db, 200, "Project not found")
      | some project =>
        if !project.stripe_configured then (db, 200, "Stripe not configured")
        else if !sig_valid then (db, 401, "Invalid signature")
        else if session.payment_status ≠ "paid" then (db, 200, "Payment not completed")
        else
          match get_payment_session db paycheck_session_id with
          | none => (db, 200, "Payment session not found")
          | some payment_session =>
            if payment_session.completed then (db, 200, "Already processed")
            else
              match get_product_by_id db payment_session.product_id with
              | none => (db, 200, "Product not found")
              | some product =>
                let expires_at := product.license_exp_days.map
                  (fun days => tNow + days * 86400)
                let updates_expires_at := product.updates_exp_days.map
                  (fun days => tNow + days * 86400)
                let created := create_license_key db payment_session.product_id
                  expires_at updates_expires_at (some "stripe") session.customer
                  session.subscription project_id tNow freshLicenseId freshLicenseKey
                let license := created.2
                let withDevice := (create_device created.1 license.id
                  payment_session.device_id payment_session.device_type
                  freshJti none tNow freshDeviceId).1
                let afterInc :=
                  if inc_fails then withDevice
                  else increment_activation_count withDevice license.id
                let afterMark :=
                  if mark_fails then afterInc
                  else mark_payment_session_completed afterInc paycheck_session_id
                (afterMark, 200, "OK")

-- ============ email.rs ============

/-- `email.rs::EmailSendResult`. -/
inductive EmailSendResult where
  | Sent
  | WebhookCalled
  | Disabled
  | NoApiKey
deriving DecidableEq

/-- `email.rs::EmailTrigger`. -/
inductive EmailTrigger where
  | Purchase
  | RecoveryRequest
  | AdminGenerated
deriving DecidableEq

/-- `email.rs::EmailSendConfig` (single license). -/
structure EmailSendConfig where
  to_email : String
  code : String
  expires_in_minutes : Int
  product_name : String
  project_name : String
  project : Project
  license_id : String
  purchased_at : Int
  org_resend_key : Option String
  trigger : EmailTrigger
deriving DecidableEq

/-- `email.rs::EmailService`: system API key and default sender. -/
structure EmailService where
  system_api_key : Option String
  default_from_email : String
deriving DecidableEq

/-- Outcome of an outbound HTTP POST: 2xx, a non-success status, or a
transport failure (`reqwest` error before any status). -/
inductive HttpOutcome where
  | success
  | errorStatus
  | transportError
deriving DecidableEq

/-- Observable outbound side effects of the email service: a POST to the
project's webhook (with the `X-Paycheck-Event` header value and payload event
name) or a POST to the Resend API (with the chosen API key and addresses). -/
inductive EmailEffect where
  | webhookPost (url : String) (event_header : String) (payload_event : String)
    (payload_email payload_code : String)
  | resendPost (api_key from_email to_email : String)
deriving DecidableEq

/-- `email.rs::EmailService::call_webhook`: POST the single-license payload;
a non-success HTTP status is logged but still reported as `WebhookCalled`. -/
def EmailService.call_webhook (_svc : EmailService) (webhook_url : String)
    (config : EmailSendConfig) (outcome : HttpOutcome) :
    List EmailEffect × Except AppError EmailSendResult :=
  let effect := EmailEffect.webhookPost webhook_url "activation_code_created"
    "activation_code_created" config.to_email config.code
  match outcome with
  | .transportError => ([effect], .error (.Internal "Webhook call failed"))
  | .success => ([effect], .ok .WebhookCalled)
  | .errorStatus => ([effect], .ok .WebhookCalled)

/-- `email.rs::EmailService::send_via_resend`: POST to the Resend API;
transport errors, non-success statuses and unparsable success bodies all
surface as `Internal`. -/
def EmailService.send_via_resend (_svc : EmailService) (api_key from_email : String)
    (config : EmailSendConfig) (outcome : HttpOutcome) (parse_ok : Bool) :
    List EmailEffect × Except AppError EmailSendResult :=
  let effect := EmailEffect.resendPost api_key from_email config.to_email
  match outcome with
  | .transportError => ([effect], .error (.Internal "Email service error"))
  | .errorStatus => ([effect], .error (.Internal "Email service error"))
  | .success =>
      if parse_ok then ([effect], .ok .Sent)
      else ([effect], .error (.Internal "Email service response error"))

/-- `email.rs::EmailService::send_activation_code`: resolution order
disabled → webhook → Resend (org key over system key) → NoApiKey. -/
def EmailService.send_activation_code (svc : EmailService)
    (config : EmailSendConfig) (webhook_outcome resend_outcome : HttpOutcome)
    (resend_parse_ok : Bool) : List EmailEffect × Except AppError EmailSendResult :=
  if !config.project.email_enabled then ([], .ok .Disabled)
  else
    match config.project.email_webhook_url with
    | some webhook_url => svc.call_webhook webhook_url config webhook_outcome
    | none =>
      match config.org_resend_key.or svc.system_api_key with
      | none => ([], .ok .NoApiKey)
      | some api_key =>
          let from_email := config.project.email_from.getD svc.default_from_email
          svc.send_via_resend api_key from_email config resend_outcome resend_parse_ok

-- ============ List helper lemmas ============

/-- `find?` commutes with a `map` whose function preserves the predicate. -/
theorem find?_map_comm {α : Type} (f : α → α) (p : α → Bool)
    (hp : ∀ a, p (f a) = p a) :
    ∀ l : List α, (l.map f).find? p = (l.find? p).map f := by
  intro l
  induction l with
  | nil => rfl
  | cons a t ih =>
      cases h : p a with
      | true => simp [List.find?_cons, hp a, h]
      | false => simp [List.find?_cons, hp a, h, ih]

/-- `filter` length is invariant under a `map` whose function preserves the
predicate. -/
theorem length_filter_map_comm {α : Type} (f : α → α) (p : α → Bool)
    (hp : ∀ a, p (f a) = p a) :
    ∀ l : List α, ((l.map f).filter p).length = (l.filter p).length := by
  intro l
  induction l with
  | nil => rfl
  | cons a t ih =>
      cases h : p a with
      | true => simp [List.filter_cons, hp a, h, ih]
      | false => simp [List.filter_cons, hp a, h, ih]

/-- Appending one element adds one to a `filter` length iff it satisfies the
predicate. -/
theorem length_filter_append_singleton {α : Type} (l : List α) (a : α) (p : α → Bool) :
    ((l ++ [a]).filter p).length
      = (l.filter p).length + (if p a then 1 else 0) := by
  cases h : p a <;> simp [List.filter_append, List.filter_cons, h]

/-- `find?` skips a prefix in which it finds nothing. -/
theorem find?_append_of_none {α : Type} {p : α → Bool} {l₁ : List α} (l₂ : List α)
    (h : l₁.find? p = none) : (l₁ ++ l₂).find? p = l₂.find? p := by
  rw [List.find?_append, h, Option.none_or]

/-- Filtering first can only shrink a `filter` length. -/
theorem length_filter_filter_le {α : Type} (l : List α) (p q : α → Bool) :
    ((l.filter q).filter p).length ≤ (l.filter p).length :=
  ((List.filter_sublist l (p := q)).filter p).length_le

-- ============ sample data for witnesses ============

/-- A sample product: limits 3 devices / 5 activations, bounded expirations. -/
def sampleProduct : Product :=
  { id := "prod1", project_id := "proj1", name := "Pro Plan", tier := "pro",
    license_exp_days := some 365, updates_exp_days := some 365,
    activation_limit := 5, device_limit := 3, features := ["pro"], created_at := 0 }

/-- A sample project with email and Stripe configured. -/
def sampleProject : Project :=
  { id := "proj1", org_id := "org1", email_enabled := true,
    email_webhook_url := none, email_from := none, stripe_configured := true }

/-- A sample license with one lifetime activation and no expiration. -/
def sampleLicense : License :=
  { id := "lic1", key := "PC-AAAA-AAAA-AAAA-AAAA", email_hash := none,
    project_id := "proj1", product_id := "prod1", customer_id := none,
    activation_count := 1, revoked := false, revoked_jtis := [],
    created_at := 0, expires_at := none, updates_expires_at := none,
    payment_provider := none, payment_provider_customer_id := none,
    payment_provider_subscription_id := none, payment_provider_order_id := none }

/-- A sample device activated on the sample license. -/
def sampleDevice : Device :=
  { id := "dev1", license_id := "lic1", device_id := "D1", device_type := .Uuid,
    name := none, jti := "J1", activated_at := 50, last_seen_at := 50 }

/-- A sample uncompleted payment session for the sample product. -/
def sampleSession : PaymentSession :=
  { id := "sess1", product_id := "prod1", customer_id := none, device_id := "D9",
    device_type := .Uuid, redirect_url := none, created_at := 0,
    completed := false, license_id := none }

/-- A small concrete store used by the witnesses. -/
def sampleDb : Db :=
  { licenses := [sampleLicense], devices := [sampleDevice],
    products := [sampleProduct], projects := [sampleProject],
    payment_sessions := [sampleSession], webhook_events := [],
    redemption_codes := [] }

-- ============ query/update commutation lemmas ============

/-- `update_device_jti` touches neither `license_id` nor `device_id`, so the
`(license_id, device_id)` lookup sees the updated row in place. -/
theorem get_device_for_license_update_jti (db : Db) (rid jti' : String)
    (tNow' : Int) (lid did : String) :
    get_device_for_license (update_device_jti db rid jti' tNow') lid did
      = (get_device_for_license db lid did).map
          (fun d => if d.id == rid then { d with jti := jti', last_seen_at := tNow' } else d) := by
  unfold get_device_for_license update_device_jti
  exact find?_map_comm _ _ (fun a => by cases ha : a.id == rid <;> simp [ha]) _

/-- `update_device_jti` does not change any license's device count. -/
theorem count_devices_update_jti (db : Db) (rid jti' : String) (tNow' : Int)
    (lid : String) :
    count_devices_for_license (update_device_jti db rid jti' tNow') lid
      = count_devices_for_license db lid := by
  unfold count_devices_for_license update_device_jti
  exact length_filter_map_comm _ _ (fun a => by cases ha : a.id == rid <;> simp [ha]) _

/-- `update_device_last_seen` touches no lookup field of any device. -/
theorem get_device_by_jti_update_last_seen (db : Db) (rid : String) (tNow' : Int)
    (jti : String) :
    get_device_by_jti (update_device_last_seen db rid tNow') jti
      = (get_device_by_jti db jti).map
          (fun d => if d.id == rid then { d with last_seen_at := tNow' } else d) := by
  unfold get_device_by_jti update_device_last_seen
  exact find?_map_comm _ _ (fun a => by cases ha : a.id == rid <;> simp [ha]) _

/-- `increment_activation_count` preserves license ids, so the id lookup sees
the incremented row in place. -/
theorem get_license_by_id_increment (db : Db) (lid' lid : String) :
    get_license_by_id (increment_activation_count db lid') lid
      = (get_license_by_id db lid).map
          (fun l => if l.id == lid' then { l with activation_count := l.activation_count + 1 } else l) := by
  unfold get_license_by_id increment_activation_count
  exact find?_map_comm _ _ (fun a => by cases ha : a.id == lid' <;> simp [ha]) _

/-- `increment_activation_count` leaves the devices table alone. -/
theorem count_devices_increment (db : Db) (lid' lid : String) :
    count_devices_for_license (increment_activation_count db lid') lid
      = count_devices_for_license db lid := rfl

-- ============ C1: acquire_device_atomic ============

/-- **C1.** `acquire_device_atomic(license_id, device_id, …)`: if the Device
row exists the call rotates its `jti`, stamps `last_seen_at = now` and returns
`Existing` with no insert and no license change; otherwise a positive device
limit already met aborts with the device-limit error and no state change; a
positive activation limit already met aborts with the activation-limit error
and no state change; otherwise exactly one Device row is inserted, the
license's `activation_count` is incremented by one, and `Created` is
returned. -/
theorem acquire_device_atomic_spec
    (db : Db) (license_id device_id : String) (device_type : DeviceType)
    (jti : String) (name : Option String) (device_limit activation_limit tNow : Int)
    (freshId : String) :
    (∀ device, get_device_for_license db license_id device_id = some device →
      (acquire_device_atomic db license_id device_id device_type jti name
        device_limit activation_limit tNow freshId).2
        = .ok (.Existing { device with jti := jti, last_seen_at := tNow }) ∧
      (acquire_device_atomic db license_id device_id device_type jti name
        device_limit activation_limit tNow freshId).1.devices.length
        = db.devices.length ∧
      (acquire_device_atomic db license_id device_id device_type jti name
        device_limit activation_limit tNow freshId).1.licenses = db.licenses ∧
      get_device_for_license (acquire_device_atomic db license_id device_id
        device_type jti name device_limit activation_limit tNow freshId).1
        license_id device_id
        = some { device with jti := jti, last_seen_at := tNow }) ∧
    (get_device_for_license db license_id device_id = none →
      device_limit > 0 →
      (count_devices_for_license db license_id : Int) ≥ device_limit →
      acquire_device_atomic db license_id device_id device_type jti name
        device_limit activation_limit tNow freshId
        = (db, .error (.Forbidden "Device limit reached"))) ∧
    (get_device_for_license db license_id device_id = none →
      ¬(device_limit > 0 ∧ (count_devices_for_license db license_id : Int) ≥ device_limit) →
      ∀ license, get_license_by_id db license_id = some license →
      activation_limit > 0 → license.activation_count ≥ activation_limit →
      acquire_device_atomic db license_id device_id device_type jti name
        device_limit activation_limit tNow freshId
        = (db, .error (.Forbidden "Activation limit reached"))) ∧
    (get_device_for_license db license_id device_id = none →
      ¬(device_limit > 0 ∧ (count_devices_for_license db license_id : Int) ≥ device_limit) →
      ∀ license, get_license_by_id db license_id = some license →
      ¬(activation_limit > 0 ∧ license.activation_count ≥ activation_limit) →
      ∃ d, (acquire_device_atomic db license_id device_id device_type jti name
        device_limit activation_limit tNow freshId).2 = .ok (.Created d) ∧
        d.license_id = license_id ∧ d.device_id = device_id ∧ d.jti = jti ∧
        d.device_type = device_type ∧ d.name = name ∧ d.activated_at = tNow ∧
        (acquire_device_atomic db license_id device_id device_type jti name
          device_limit activation_limit tNow freshId).1.devices
          = db.devices ++ [d] ∧
        count_devices_for_license (acquire_device_atomic db license_id device_id
          device_type jti name device_limit activation_limit tNow freshId).1
          license_id
          = count_devices_for_license db license_id + 1 ∧
        get_license_by_id (acquire_device_atomic db license_id device_id
          device_type jti name device_limit activation_limit tNow freshId).1
          license_id
          = some { license with activation_count := license.activation_count + 1 }) := by
  refine ⟨?_, ?_, ?_, ?_⟩
  · intro device hdev
    have hresult : acquire_device_atomic db license_id device_id device_type jti name
        device_limit activation_limit tNow freshId
        = (update_device_jti db device.id jti tNow,
           .ok (.Existing { device with jti := jti, last_seen_at := tNow })) := by
      simp [acquire_device_atomic, hdev]
    refine ⟨by rw [hresult], by rw [hresult]; simp [update_device_jti],
            by rw [hresult]; rfl, ?_⟩
    rw [hresult, get_device_for_license_update_jti, hdev]
    have hid : (device.id == device.id) = true := by simp
    simp [hid]
  · intro hnone hdl hcnt
    simp [acquire_device_atomic, hnone, hdl, hcnt]
  · intro hnone hnd license hlic hal hac
    simp [acquire_device_atomic, hnone, hnd, hlic, hal, hac]
  · intro hnone hnd license hlic hna
    have hresult : acquire_device_atomic db license_id device_id device_type jti name
        device_limit activation_limit tNow freshId
        = (increment_activation_count
            { db with devices := db.devices ++
                [{ id := freshId, license_id := license_id, device_id := device_id,
                   device_type := device_type, name := name, jti := jti,
                   activated_at := tNow, last_seen_at := tNow }] } license_id,
           .ok (.Created
             { id := freshId, license_id := license_id, device_id := device_id,
               device_type := device_type, name := name, jti := jti,
               activated_at := tNow, last_seen_at := tNow })) := by
      simp [acquire_device_atomic, hnone, hnd, hlic, hna, create_device]
    refine ⟨_, by rw [hresult], rfl, rfl, rfl, rfl, rfl, rfl, ?_, ?_, ?_⟩
    · rw [hresult]; rfl
    · rw [hresult, count_devices_increment]
      unfold count_devices_for_license
      simp [length_filter_append_singleton]
    · rw [hresult, get_license_by_id_increment]
      have hlic' : get_license_by_id
          { db with devices := db.devices ++
              [{ id := freshId, license_id := license_id, device_id := device_id,
                 device_type := device_type, name := name, jti := jti,
                 activated_at := tNow, last_seen_at := tNow }] } license_id
          = some license := hlic
      rw [hlic']
      have hid : (license.id == license_id) = true := by
        unfold get_license_by_id at hlic
        have h0 := List.find?_some hlic
        simpa using h0
      simp only [Option.map_some']
      rw [if_pos hid]

/-- Witness for C1: acquiring a previously unknown device `D2` against an
explicit device limit of 1 (the sample license already holds one device) is
rejected with the device-limit error and leaves the store untouched. -/
theorem acquire_device_atomic_spec_witness :
    get_device_for_license sampleDb "lic1" "D2" = none ∧
    (1 : Int) > 0 ∧
    (count_devices_for_license sampleDb "lic1" : Int) ≥ 1 ∧
    acquire_device_atomic sampleDb "lic1" "D2" DeviceType.Uuid "J2" none
      1 5 100 "dev2" = (sampleDb, .error (.Forbidden "Device limit reached")) :=
  ⟨by decide, by decide, by decide,
   (acquire_device_atomic_spec sampleDb "lic1" "D2" DeviceType.Uuid "J2" none
      1 5 100 "dev2").2.1 (by decide) (by decide) (by decide)⟩

-- ============ C4: the reachable-state invariant ============

/-- The state-changing public operations the no-overshoot claim ranges over:
key-based redemption (`redeem.rs`), the atomic acquisition engine
(`queries.rs`, invoked with the license's product limits as §4.6 prescribes),
and self-service deactivation (`devices.rs`). -/
inductive Op where
  | redeem (query : RedeemQuery) (tNow : Int) (jti freshId token : String)
      (sign_ok : Bool)
  | acquire (license_id device_id : String) (device_type : DeviceType)
      (jti : String) (name : Option String) (tNow : Int) (freshId : String)
  | deactivate (request : DeactivateRequest)

/-- Run one operation, keeping only its state effect (an error leaves the
state unchanged, as each handler returns the untouched state then). -/
def apply_op (db : Db) : Op → Db
  | .redeem query tNow jti freshId token sign_ok =>
      (redeem_license db query tNow jti freshId token sign_ok).1
  | .acquire license_id device_id device_type jti name tNow freshId =>
      match get_license_by_id db license_id with
      | none => db
      | some license =>
        match get_product_by_id db license.product_id with
        | none => db
        | some product =>
          (acquire_device_atomic db license_id device_id device_type jti name
            product.device_limit product.activation_limit tNow freshId).1
  | .deactivate request => (deactivate_device db request).1

/-- Run a sequence of operations. -/
def apply_ops (db : Db) (ops : List Op) : Db := ops.foldl apply_op db

/-- I1 first half: `(license_id, device_id)` is unique across Device rows. -/
def DevicePairsUnique (db : Db) : Prop :=
  db.devices.Pairwise (fun a b => a.license_id ≠ b.license_id ∨ a.device_id ≠ b.device_id)

/-- License ids are primary keys: two rows with the same id coincide. -/
def LicenseIdsInjective (db : Db) : Prop :=
  ∀ a ∈ db.licenses, ∀ b ∈ db.licenses, a.id = b.id → a = b

/-- I1 second half / P2: whenever a license's product has a positive
`device_limit`, the license's device count stays within it. -/
def DeviceCountOk (db : Db) : Prop :=
  ∀ l ∈ db.licenses, ∀ p ∈ get_product_by_id db l.product_id,
    p.device_limit > 0 → (count_devices_for_license db l.id : Int) ≤ p.device_limit

/-- The inductive invariant: primary-key injectivity strengthens the two
claimed properties so they survive every step. -/
def DbInv (db : Db) : Prop :=
  LicenseIdsInjective db ∧ DevicePairsUnique db ∧ DeviceCountOk db

instance (db : Db) : Decidable (LicenseIdsInjective db) := by
  unfold LicenseIdsInjective
  infer_instance

instance (db : Db) : Decidable (DevicePairsUnique db) := by
  unfold DevicePairsUnique
  infer_instance

instance (db : Db) : Decidable (DeviceCountOk db) := by
  unfold DeviceCountOk
  infer_instance

instance (db : Db) : Decidable (DbInv db) := by
  unfold DbInv
  infer_instance

/-- Restate `DeviceCountOk` through equations rather than `Option`
membership. -/
theorem deviceCountOk_iff (db : Db) :
    DeviceCountOk db ↔ ∀ l ∈ db.licenses, ∀ p,
      get_product_by_id db l.product_id = some p → p.device_limit > 0 →
      (count_devices_for_license db l.id : Int) ≤ p.device_limit := by
  constructor
  · intro h l hl p hp
    exact h l hl p (Option.mem_def.mpr hp)
  · intro h l hl p hp
    exact h l hl p (Option.mem_def.mp hp)

/-- Rewriting every License row without touching `id` or `product_id` (and
leaving every other table alone) preserves the invariant. -/
theorem dbInv_map_licenses (db : Db) (f : License → License)
    (hid : ∀ l, (f l).id = l.id) (hpid : ∀ l, (f l).product_id = l.product_id)
    (h : DbInv db) : DbInv { db with licenses := db.licenses.map f } := by
  obtain ⟨hinj, hpairs, hcnt⟩ := h
  refine ⟨?_, hpairs, ?_⟩
  · intro a ha b hb hab
    obtain ⟨a₀, ha₀, rfl⟩ := List.mem_map.mp ha
    obtain ⟨b₀, hb₀, rfl⟩ := List.mem_map.mp hb
    rw [hid a₀, hid b₀] at hab
    rw [hinj a₀ ha₀ b₀ hb₀ hab]
  · rw [deviceCountOk_iff]
    rw [deviceCountOk_iff] at hcnt
    intro l' hl' p hp hd
    obtain ⟨l, hl, rfl⟩ := List.mem_map.mp hl'
    have hp' : get_product_by_id db l.product_id = some p := by
      rw [← hpid l]; exact hp
    have := hcnt l hl p hp' hd
    simpa [count_devices_for_license, hid l] using this

/-- Rewriting every Device row without touching `license_id` or `device_id`
preserves the invariant. -/
theorem dbInv_map_devices (db : Db) (f : Device → Device)
    (hl : ∀ d, (f d).license_id = d.license_id)
    (hd : ∀ d, (f d).device_id = d.device_id)
    (h : DbInv db) : DbInv { db with devices := db.devices.map f } := by
  obtain ⟨hinj, hpairs, hcnt⟩ := h
  refine ⟨hinj, ?_, ?_⟩
  · rw [DevicePairsUnique, List.pairwise_map]
    refine hpairs.imp ?_
    intro a b hab
    rw [hl a, hl b, hd a, hd b]
    exact hab
  · rw [deviceCountOk_iff]
    rw [deviceCountOk_iff] at hcnt
    intro l hlmem p hp hdl
    have hc : count_devices_for_license { db with devices := db.devices.map f } l.id
        = count_devices_for_license db l.id := by
      unfold count_devices_for_license
      exact length_filter_map_comm _ _ (fun a => by simp [hl a]) _
    rw [hc]
    exact hcnt l hlmem p hp hdl

/-- Dropping Device rows (a `DELETE`) preserves the invariant. -/
theorem dbInv_filter_devices (db : Db) (q : Device → Bool)
    (h : DbInv db) : DbInv { db with devices := db.devices.filter q } := by
  obtain ⟨hinj, hpairs, hcnt⟩ := h
  refine ⟨hinj, hpairs.sublist (List.filter_sublist _), ?_⟩
  · rw [deviceCountOk_iff]
    rw [deviceCountOk_iff] at hcnt
    intro l hlmem p hp hdl
    refine le_trans ?_ (hcnt l hlmem p hp hdl)
    have : count_devices_for_license { db with devices := db.devices.filter q } l.id
        ≤ count_devices_for_license db l.id := by
      unfold count_devices_for_license
      exact length_filter_filter_le _ _ _
    exact_mod_cast this

/-- Appending one Device row preserves the invariant provided the row is
fresh for its `(license_id, device_id)` pair and the owning license's product
limit still has room. -/
theorem dbInv_insert_device (db : Db) (license : License) (product : Product)
    (d : Device)
    (hmem : license ∈ db.licenses)
    (hlid : d.license_id = license.id)
    (hprod : get_product_by_id db license.product_id = some product)
    (hguard : product.device_limit > 0 →
      (count_devices_for_license db license.id : Int) + 1 ≤ product.device_limit)
    (hnew : get_device_for_license db license.id d.device_id = none)
    (h : DbInv db) : DbInv { db with devices := db.devices ++ [d] } := by
  obtain ⟨hinj, hpairs, hcnt⟩ := h
  have hfresh : ∀ a ∈ db.devices,
      a.license_id ≠ d.license_id ∨ a.device_id ≠ d.device_id := by
    intro a ha
    have := List.find?_eq_none.mp hnew a ha
    rw [hlid]
    by_cases h1 : a.license_id = license.id
    · right
      intro h2
      exact this (by simp [h1, h2])
    · exact Or.inl h1
  refine ⟨hinj, ?_, ?_⟩
  · rw [DevicePairsUnique, List.pairwise_append]
    exact ⟨hpairs, List.pairwise_singleton _ _, by
      intro a ha b hb
      rw [List.mem_singleton] at hb
      subst hb
      exact hfresh a ha⟩
  · rw [deviceCountOk_iff]
    rw [deviceCountOk_iff] at hcnt
    intro l hl p hp hdl
    have hcount : count_devices_for_license { db with devices := db.devices ++ [d] } l.id
        = count_devices_for_license db l.id
          + (if d.license_id == l.id then 1 else 0) := by
      unfold count_devices_for_license
      exact length_filter_append_singleton _ _ _
    rw [hcount]
    by_cases hsame : d.license_id = l.id
    · have hll : l = license := by
        apply hinj l hl license hmem
        rw [← hsame, hlid]
      subst hll
      have hpp : p = product := by
        have hp' : get_product_by_id db l.product_id = some p := hp
        rw [hprod] at hp'
        exact (Option.some_inj.mp hp').symm
      subst hpp
      simp only [hsame, beq_self_eq_true, if_pos]
      push_cast
      exact hguard hdl
    · have hne : (d.license_id == l.id) = false := by
        rw [beq_eq_false_iff_ne]
        exact hsame
      rw [hne]
      have hp' : get_product_by_id db l.product_id = some p := hp
      simpa using hcnt l hl p hp' hdl

/-- One `acquire` step (the §4.6 engine invoked with the license's product
limits) preserves the invariant. -/
theorem dbInv_apply_acquire (db : Db) (license_id device_id : String)
    (device_type : DeviceType) (jti : String) (name : Option String)
    (tNow : Int) (freshId : String) (h : DbInv db) :
    DbInv (apply_op db (.acquire license_id device_id device_type jti name tNow freshId)) := by
  rcases hlic : get_license_by_id db license_id with _ | license
  · simp only [apply_op, hlic]
    exact h
  rcases hprod : get_product_by_id db license.product_id with _ | product
  · simp only [apply_op, hlic, hprod]
    exact h
  have hlicid : license.id = license_id := by
    unfold get_license_by_id at hlic
    have h0 := List.find?_some hlic
    simpa using h0
  have hmem : license ∈ db.licenses := by
    unfold get_license_by_id at hlic
    exact List.mem_of_find?_eq_some hlic
  rcases hdev : get_device_for_license db license_id device_id with _ | device
  · by_cases hgd : product.device_limit > 0 ∧
        (count_devices_for_license db license_id : Int) ≥ product.device_limit
    · simp only [apply_op, hlic, hprod]
      unfold acquire_device_atomic
      simp only [hdev, if_pos hgd]
      exact h
    · by_cases hga : product.activation_limit > 0 ∧
          license.activation_count ≥ product.activation_limit
      · simp only [apply_op, hlic, hprod]
        unfold acquire_device_atomic
        simp only [hdev, if_neg hgd, hlic, if_pos hga]
        exact h
      · simp only [apply_op, hlic, hprod]
        unfold acquire_device_atomic
        simp only [hdev, if_neg hgd, hlic, if_neg hga, create_device]
        refine dbInv_map_licenses _ _
          (fun l => by by_cases hx : l.id == license_id <;> simp [hx])
          (fun l => by by_cases hx : l.id == license_id <;> simp [hx])
          (dbInv_insert_device db license product _ hmem hlicid.symm hprod ?_ ?_ h)
        · intro hdl
          rw [hlicid]
          have hlt : (count_devices_for_license db license_id : Int) < product.device_limit := by
            by_contra hcon
            exact hgd ⟨hdl, le_of_not_lt hcon⟩
          omega
        · rw [hlicid]
          exact hdev
  · simp only [apply_op, hlic, hprod]
    unfold acquire_device_atomic
    simp only [hdev]
    exact dbInv_map_devices db _
      (fun d => by by_cases hx : d.id == device.id <;> simp [hx])
      (fun d => by by_cases hx : d.id == device.id <;> simp [hx]) h

/-- One key-based redemption step preserves the invariant. -/
theorem dbInv_apply_redeem (db : Db) (query : RedeemQuery) (tNow : Int)
    (jti freshId token : String) (sign_ok : Bool) (h : DbInv db) :
    DbInv (apply_op db (.redeem query tNow jti freshId token sign_ok)) := by
  rcases hdt : DeviceType.from_str query.device_type with _ | device_type
  · simpa [apply_op, redeem_license, hdt] using h
  rcases hlic : get_license_key_by_key db query.key with _ | license
  · simpa [apply_op, redeem_license, hdt, hlic] using h
  have hmem : license ∈ db.licenses := by
    unfold get_license_key_by_key at hlic
    exact List.mem_of_find?_eq_some hlic
  cases hrev : license.revoked with
  | true => simpa [apply_op, redeem_license, hdt, hlic, hrev] using h
  | false =>
  cases hexp : expiry_passed license.expires_at tNow with
  | true => simpa [apply_op, redeem_license, hdt, hlic, hrev, hexp] using h
  | false =>
  rcases hprod : get_product_by_id db license.product_id with _ | product
  · simpa [apply_op, redeem_license, hdt, hlic, hrev, hexp, hprod] using h
  by_cases hpj : product.project_id ≠ query.project_id
  · simpa [apply_op, redeem_license, hdt, hlic, hrev, hexp, hprod, hpj] using h
  rcases hproj : get_project_by_id db query.project_id with _ | project
  · simpa [apply_op, redeem_license, hdt, hlic, hrev, hexp, hprod, hpj,
      hproj] using h
  rcases hexist : get_device_for_license db license.id query.device_id with _ | existing
  · by_cases hgd : product.device_limit > 0 ∧
        (count_devices_for_license db license.id : Int) ≥ product.device_limit
    · simpa [apply_op, redeem_license, hdt, hlic, hrev, hexp, hprod, hpj,
        hproj, hexist, hgd] using h
    · by_cases hga : product.activation_limit > 0 ∧
          license.activation_count ≥ product.activation_limit
      · simpa [apply_op, redeem_license, hdt, hlic, hrev, hexp, hprod, hpj,
          hproj, hexist, hgd, hga] using h
      · cases hsig : sign_ok with
        | false =>
            simpa [apply_op, redeem_license, hdt, hlic, hrev, hexp, hprod,
              hpj, hproj, hexist, hgd, hga, hsig] using h
        | true =>
            have hstate : apply_op db (.redeem query tNow jti freshId token true)
                = increment_activation_count
                    (create_device db license.id query.device_id device_type jti
                      query.device_name tNow freshId).1 license.id := by
              simp [apply_op, redeem_license, hdt, hlic, hrev, hexp, hprod,
                hpj, hproj, hexist, hgd, hga, hsig]
            rw [hstate]
            refine dbInv_map_licenses _ _
              (fun l => by by_cases hx : l.id == license.id <;> simp [hx])
              (fun l => by by_cases hx : l.id == license.id <;> simp [hx])
              (dbInv_insert_device db license product _ hmem rfl hprod ?_ hexist h)
            intro hdl
            have hlt : (count_devices_for_license db license.id : Int)
                < product.device_limit := by
              by_contra hcon
              exact hgd ⟨hdl, le_of_not_lt hcon⟩
            omega
  · cases hsig : sign_ok with
    | false =>
        simpa [apply_op, redeem_license, hdt, hlic, hrev, hexp, hprod, hpj,
          hproj, hexist, hsig] using h
    | true =>
        have hstate : apply_op db (.redeem query tNow jti freshId token true)
            = update_device_jti db existing.id jti tNow := by
          simp [apply_op, redeem_license, hdt, hlic, hrev, hexp, hprod, hpj,
            hproj, hexist, hsig]
        rw [hstate]
        exact dbInv_map_devices db _
          (fun d => by by_cases hx : d.id == existing.id <;> simp [hx])
          (fun d => by by_cases hx : d.id == existing.id <;> simp [hx]) h

/-- One deactivation step preserves the invariant. -/
theorem dbInv_apply_deactivate (db : Db) (request : DeactivateRequest)
    (h : DbInv db) : DbInv (apply_op db (.deactivate request)) := by
  rcases hlic : get_license_key_by_key db request.key with _ | license
  · simpa [apply_op, deactivate_device, hlic] using h
  rcases hprod : get_product_by_id db license.product_id with _ | product
  · simpa [apply_op, deactivate_device, hlic, hprod] using h
  by_cases hpj : product.project_id ≠ request.project_id
  · simpa [apply_op, deactivate_device, hlic, hprod, hpj] using h
  rcases hdev : get_device_for_license db license.id request.device_id with _ | device
  · simpa [apply_op, deactivate_device, hlic, hprod, hpj, hdev] using h
  rcases hlid : get_license_by_id db license.id with _ | l0
  · simpa [apply_op, deactivate_device, add_revoked_jti, hlic, hprod, hpj,
      hdev, hlid] using h
  have hstate : apply_op db (.deactivate request)
      = delete_device_by_device_id
          { db with licenses := db.licenses.map (fun l =>
              if l.id == license.id
              then { l with revoked_jtis := l0.revoked_jtis ++ [device.jti] }
              else l) }
          license.id request.device_id := by
    simp [apply_op, deactivate_device, add_revoked_jti, hlic, hprod, hpj,
      hdev, hlid]
  rw [hstate]
  exact dbInv_filter_devices _ _
    (dbInv_map_licenses db _
      (fun l => by by_cases hx : l.id == license.id <;> simp [hx])
      (fun l => by by_cases hx : l.id == license.id <;> simp [hx]) h)

/-- **C4.** No-overshoot invariant: starting from any store satisfying the
inductive invariant (primary-key injectivity, device-pair uniqueness, count
within limit) — in particular the empty store — every state reachable through
the program's operations (redemption/acquisition, deactivation) keeps
`(license_id, device_id)` unique across Device rows and keeps every license's
device count within its product's `device_limit` whenever that limit is
positive; `device_limit = 0` imposes no cap. -/
theorem no_overshoot_invariant (db₀ : Db) (h : DbInv db₀) (ops : List Op) :
    DevicePairsUnique (apply_ops db₀ ops) ∧ DeviceCountOk (apply_ops db₀ ops) := by
  suffices hs : DbInv (apply_ops db₀ ops) from ⟨hs.2.1, hs.2.2⟩
  induction ops generalizing db₀ with
  | nil => exact h
  | cons op rest ih =>
      have h1 : DbInv (apply_op db₀ op) := by
        cases op with
        | redeem query tNow jti freshId token sign_ok =>
            exact dbInv_apply_redeem db₀ query tNow jti freshId token sign_ok h
        | acquire license_id device_id device_type jti name tNow freshId =>
            exact dbInv_apply_acquire db₀ license_id device_id device_type jti
              name tNow freshId h
        | deactivate request => exact dbInv_apply_deactivate db₀ request h
      exact ih _ h1

/-- A sample redemption request used by the C4 witness. -/
def sampleRedeemQuery : RedeemQuery :=
  { project_id := "proj1", key := "PC-AAAA-AAAA-AAAA-AAAA",
    device_id := "D2", device_type := "uuid", device_name := none }

/-- A sample deactivation request used by the witnesses. -/
def sampleDeactivateRequest : DeactivateRequest :=
  { project_id := "proj1", key := "PC-AAAA-AAAA-AAAA-AAAA", device_id := "D1" }

/-- A concrete three-step run: redeem a second device, acquire a third,
deactivate the first. -/
def sampleOps : List Op :=
  [Op.redeem sampleRedeemQuery 200 "J2" "dev2" "tok2" true,
   Op.acquire "lic1" "D3" DeviceType.Machine "J3" none 300 "dev3",
   Op.deactivate sampleDeactivateRequest]

/-- Witness for C4: the sample store satisfies the invariant, and the sample
three-step run keeps both claimed properties. -/
theorem no_overshoot_invariant_witness :
    DbInv sampleDb ∧
    (DevicePairsUnique (apply_ops sampleDb sampleOps) ∧
     DeviceCountOk (apply_ops sampleDb sampleOps)) :=
  ⟨by decide, no_overshoot_invariant sampleDb (by decide) sampleOps⟩

-- ============ C5 / C6: validate ============

/-- `expiry_passed` is false exactly when the optional deadline is absent or
not yet strictly past. -/
theorem expiry_passed_false_iff (o : Option Int) (t : Int) :
    expiry_passed o t = false ↔ ∀ e ∈ o, t ≤ e := by
  cases o <;> simp [expiry_passed]

/-- Spec reading of I7 (the claim as written): a token's `jti` validates iff
the matching Device exists, its License is usable (`revoked = false` and
`expires_at` null or strictly in the future), the `jti` is not revoked, and
the license's product belongs to the requested project.  This definition
follows the spec's words, to be compared against `validate_license`. -/
def spec_jti_validates (db : Db) (query : ValidateQuery) (tNow : Int) : Prop :=
  ∃ device ∈ db.devices, device.jti = query.jti ∧
    ∃ license ∈ db.licenses, license.id = device.license_id ∧
      license.revoked = false ∧
      (license.expires_at = none ∨ ∃ e ∈ license.expires_at, tNow < e) ∧
      query.jti ∉ license.revoked_jtis ∧
      ∃ product ∈ db.products, product.id = license.product_id ∧
        product.project_id = query.project_id

instance (db : Db) (query : ValidateQuery) (tNow : Int) :
    Decidable (spec_jti_validates db query tNow) := by
  unfold spec_jti_validates
  infer_instance

/-- A product whose license expires the day it is activated
(`license_exp_days = 0`); limits disabled. -/
def c5Product : Product :=
  { id := "prodZ", project_id := "projZ", name := "Zero", tier := "z",
    license_exp_days := some 0, updates_exp_days := none,
    activation_limit := 0, device_limit := 0, features := [], created_at := 0 }

/-- A perpetual (`expires_at = none`), unrevoked license on `c5Product`. -/
def c5License : License :=
  { id := "licZ", key := "Z-KEY", email_hash := none, project_id := "projZ",
    product_id := "prodZ", customer_id := none, activation_count := 1,
    revoked := false, revoked_jtis := [], created_at := 0, expires_at := none,
    updates_expires_at := none, payment_provider := none,
    payment_provider_customer_id := none,
    payment_provider_subscription_id := none,
    payment_provider_order_id := none }

/-- A device on `c5License` activated at time 0 with jti `JZ`. -/
def c5Device : Device :=
  { id := "devZ", license_id := "licZ", device_id := "DZ",
    device_type := .Uuid, name := none, jti := "JZ", activated_at := 0,
    last_seen_at := 0 }

/-- The C5 counterexample store. -/
def c5Db : Db :=
  { licenses := [c5License], devices := [c5Device], products := [c5Product],
    projects := [], payment_sessions := [], webhook_events := [],
    redemption_codes := [] }

/-- **C5 counterexample.** At time 1, the spec's conditions hold for jti `JZ`
(device exists, license usable and perpetual, jti unrevoked, product in the
requested project), yet `validate_license` answers `{valid: false}`: the code
additionally recomputes a license expiration from the product's
`license_exp_days` and the device's `activated_at` (here `0 + 0·86400 = 0 <
1`) and rejects on it — a check absent from the claim. -/
theorem validate_license_spec_counterexample :
    spec_jti_validates c5Db { project_id := "projZ", jti := "JZ" } 1 ∧
    (validate_license c5Db { project_id := "projZ", jti := "JZ" } 1).2
      = .ok invalid_response := by
  constructor
  · decide
  · decide

/-- `expiry_passed` over a mapped optional deadline. -/
theorem expiry_passed_map_false_iff (o : Option Int) (f : Int → Int) (t : Int) :
    expiry_passed (o.map f) t = false ↔ ∀ x ∈ o, t ≤ f x := by
  cases o <;> simp [expiry_passed]

/-- **C5 (amended).** `validate_license` answers `valid = true` iff a Device
row with the requested `jti` exists, its License row exists, the license is
not revoked, the `jti` is not in `revoked_jtis`, `expires_at` is absent or
not strictly past (`now ≤ expires_at`), the license's product exists and
belongs to the requested project, **and** the product-derived expiration
(`activated_at + license_exp_days·86400`, when `license_exp_days` is set) is
not strictly past; on a valid result the response carries exactly the
product-derived license/updates expirations. -/
theorem validate_license_valid_iff (db : Db) (query : ValidateQuery) (tNow : Int) :
    ((∃ r, (validate_license db query tNow).2 = .ok r ∧ r.valid = true) ↔
      (∃ device, get_device_by_jti db query.jti = some device ∧
        ∃ license, get_license_key_by_id db device.license_id = some license ∧
          license.revoked = false ∧
          query.jti ∉ license.revoked_jtis ∧
          (∀ e ∈ license.expires_at, tNow ≤ e) ∧
          ∃ product, get_product_by_id db license.product_id = some product ∧
            product.project_id = query.project_id ∧
            (∀ days ∈ product.license_exp_days,
              tNow ≤ device.activated_at + days * 86400))) ∧
    (∀ device license product,
      get_device_by_jti db query.jti = some device →
      get_license_key_by_id db device.license_id = some license →
      license.revoked = false →
      query.jti ∉ license.revoked_jtis →
      (∀ e ∈ license.expires_at, tNow ≤ e) →
      get_product_by_id db license.product_id = some product →
      product.project_id = query.project_id →
      (∀ days ∈ product.license_exp_days,
        tNow ≤ device.activated_at + days * 86400) →
      (validate_license db query tNow).2 = .ok
        { valid := true, reason := none,
          license_exp := product.license_exp_days.map
            (fun days => device.activated_at + days * 86400),
          updates_exp := product.updates_exp_days.map
            (fun days => device.activated_at + days * 86400) }) := by
  have hfinal : ∀ device license product,
      get_device_by_jti db query.jti = some device →
      get_license_key_by_id db device.license_id = some license →
      license.revoked = false →
      query.jti ∉ license.revoked_jtis →
      (∀ e ∈ license.expires_at, tNow ≤ e) →
      get_product_by_id db license.product_id = some product →
      product.project_id = query.project_id →
      (∀ days ∈ product.license_exp_days,
        tNow ≤ device.activated_at + days * 86400) →
      (validate_license db query tNow).2 = .ok
        { valid := true, reason := none,
          license_exp := product.license_exp_days.map
            (fun days => device.activated_at + days * 86400),
          updates_exp := product.updates_exp_days.map
            (fun days => device.activated_at + days * 86400) } := by
    intro device license product hdev hlic hrev hnotmem hle hprod hpj hle2
    have hexp : expiry_passed license.expires_at tNow = false :=
      (expiry_passed_false_iff _ _).mpr hle
    have hexp2 : expiry_passed (product.license_exp_days.map
        (fun days => device.activated_at + days * 86400)) tNow = false :=
      (expiry_passed_map_false_iff _ _ _).mpr hle2
    simp [validate_license, hdev, hlic, hrev, hnotmem, hexp, hprod, hpj,
      hexp2, LicenseExpirations.from_product, LicenseExpirations.from_days]
  refine ⟨⟨?_, ?_⟩, hfinal⟩
  · intro hL
    rcases hdev : get_device_by_jti db query.jti with _ | device
    · exact absurd hL (by simp [validate_license, hdev, invalid_response])
    rcases hlic : get_license_key_by_id db device.license_id with _ | license
    · exact absurd hL (by simp [validate_license, hdev, hlic, invalid_response])
    cases hrev : license.revoked with
    | true => exact absurd hL (by
        simp [validate_license, hdev, hlic, hrev, invalid_response])
    | false =>
    by_cases hmem : query.jti ∈ license.revoked_jtis
    · exact absurd hL (by
        simp [validate_license, hdev, hlic, hrev, hmem, invalid_response])
    cases hexp : expiry_passed license.expires_at tNow with
    | true => exact absurd hL (by
        simp [validate_license, hdev, hlic, hrev, hmem, hexp, invalid_response])
    | false =>
    rcases hprod : get_product_by_id db license.product_id with _ | product
    · exact absurd hL (by
        simp [validate_license, hdev, hlic, hrev, hmem, hexp, hprod,
          invalid_response])
    by_cases hpj : product.project_id ≠ query.project_id
    · exact absurd hL (by
        simp [validate_license, hdev, hlic, hrev, hmem, hexp, hprod, hpj,
          invalid_response])
    cases hexp2 : expiry_passed (LicenseExpirations.from_product product
        device.activated_at).license_exp tNow with
    | true => exact absurd hL (by
        simp [validate_license, hdev, hlic, hrev, hmem, hexp, hprod, hpj,
          hexp2, invalid_response])
    | false =>
        refine ⟨device, rfl, license, hlic, hrev, hmem,
          (expiry_passed_false_iff _ _).mp hexp, product, hprod,
          not_not.mp hpj, ?_⟩
        rw [← expiry_passed_map_false_iff]
        simpa [LicenseExpirations.from_product, LicenseExpirations.from_days]
          using hexp2
  · rintro ⟨device, hdev, license, hlic, hrev, hnotmem, hle, product, hprod,
      hpj, hle2⟩
    exact ⟨_, hfinal device license product hdev hlic hrev hnotmem hle hprod
      hpj hle2, rfl⟩

/-- Witness for C5 (amended): validating `J1` on the sample store at time 100
succeeds and carries the product-derived expirations. -/
theorem validate_license_valid_iff_witness :
    (validate_license sampleDb { project_id := "proj1", jti := "J1" } 100).2
      = .ok { valid := true, reason := none,
              license_exp := sampleProduct.license_exp_days.map
                (fun days => sampleDevice.activated_at + days * 86400),
              updates_exp := sampleProduct.updates_exp_days.map
                (fun days => sampleDevice.activated_at + days * 86400) } :=
  (validate_license_valid_iff sampleDb { project_id := "proj1", jti := "J1" }
      100).2 sampleDevice sampleLicense sampleProduct (by decide) (by decide)
      (by decide) (by decide) (by decide) (by decide) (by decide) (by decide)

/-- **C6.** Every unsuccessful validation that answers at all answers with
exactly the anonymous body `{valid: false, reason: null}` (both expiration
fields absent): any `Ok` response with `valid = false` is `invalid_response`,
and each enumerated failure mode — unknown jti, missing license, revoked
license, revoked jti, expired license, project mismatch — produces `200 Ok`
with that body rather than an error status. -/
theorem validate_license_failure_uniform (db : Db) (query : ValidateQuery)
    (tNow : Int) :
    (∀ db' r, validate_license db query tNow = (db', .ok r) → r.valid = false →
      r = invalid_response) ∧
    (get_device_by_jti db query.jti = none →
      validate_license db query tNow = (db, .ok invalid_response)) ∧
    (∀ device, get_device_by_jti db query.jti = some device →
      get_license_key_by_id db device.license_id = none →
      validate_license db query tNow = (db, .ok invalid_response)) ∧
    (∀ device license, get_device_by_jti db query.jti = some device →
      get_license_key_by_id db device.license_id = some license →
      license.revoked = true →
      validate_license db query tNow = (db, .ok invalid_response)) ∧
    (∀ device license, get_device_by_jti db query.jti = some device →
      get_license_key_by_id db device.license_id = some license →
      license.revoked = false → query.jti ∈ license.revoked_jtis →
      validate_license db query tNow = (db, .ok invalid_response)) ∧
    (∀ device license, get_device_by_jti db query.jti = some device →
      get_license_key_by_id db device.license_id = some license →
      license.revoked = false → query.jti ∉ license.revoked_jtis →
      expiry_passed license.expires_at tNow = true →
      validate_license db query tNow = (db, .ok invalid_response)) ∧
    (∀ device license product, get_device_by_jti db query.jti = some device →
      get_license_key_by_id db device.license_id = some license →
      license.revoked = false → query.jti ∉ license.revoked_jtis →
      expiry_passed license.expires_at tNow = false →
      get_product_by_id db license.product_id = some product →
      product.project_id ≠ query.project_id →
      validate_license db query tNow = (db, .ok invalid_response)) := by
  refine ⟨?_, ?_, ?_, ?_, ?_, ?_, ?_⟩
  · intro db' r h hv
    rcases hdev : get_device_by_jti db query.jti with _ | device
    · rw [show validate_license db query tNow = (db, Except.ok invalid_response)
          from by simp [validate_license, hdev]] at h
      injection h with h1 h2
      injection h2 with h3
      exact h3.symm
    rcases hlic : get_license_key_by_id db device.license_id with _ | license
    · rw [show validate_license db query tNow = (db, Except.ok invalid_response)
          from by simp [validate_license, hdev, hlic]] at h
      injection h with h1 h2
      injection h2 with h3
      exact h3.symm
    cases hrev : license.revoked with
    | true =>
        rw [show validate_license db query tNow = (db, Except.ok invalid_response)
            from by simp [validate_license, hdev, hlic, hrev]] at h
        injection h with h1 h2
        injection h2 with h3
        exact h3.symm
    | false =>
    by_cases hmem : query.jti ∈ license.revoked_jtis
    · rw [show validate_license db query tNow = (db, Except.ok invalid_response)
          from by simp [validate_license, hdev, hlic, hrev, hmem]] at h
      injection h with h1 h2
      injection h2 with h3
      exact h3.symm
    cases hexp : expiry_passed license.expires_at tNow with
    | true =>
        rw [show validate_license db query tNow = (db, Except.ok invalid_response)
            from by simp [validate_license, hdev, hlic, hrev, hmem, hexp]] at h
        injection h with h1 h2
        injection h2 with h3
        exact h3.symm
    | false =>
    rcases hprod : get_product_by_id db license.product_id with _ | product
    · rw [show validate_license db query tNow
          = (db, Except.error (AppError.Internal "Product not found"))
          from by simp [validate_license, hdev, hlic, hrev, hmem, hexp, hprod]] at h
      injection h with h1 h2
      cases h2
    by_cases hpj : product.project_id ≠ query.project_id
    · rw [show validate_license db query tNow = (db, Except.ok invalid_response)
          from by simp [validate_license, hdev, hlic, hrev, hmem, hexp, hprod,
            hpj]] at h
      injection h with h1 h2
      injection h2 with h3
      exact h3.symm
    cases hexp2 : expiry_passed (LicenseExpirations.from_product product
        device.activated_at).license_exp tNow with
    | true =>
        rw [show validate_license db query tNow
            = (update_device_last_seen db device.id tNow, Except.ok invalid_response)
            from by simp [validate_license, hdev, hlic, hrev, hmem, hexp,
              hprod, hpj, hexp2]] at h
        injection h with h1 h2
        injection h2 with h3
        exact h3.symm
    | false =>
        rw [show validate_license db query tNow
            = (update_device_last_seen db device.id tNow, Except.ok
                { valid := true, reason := none,
                  license_exp := (LicenseExpirations.from_product product
                    device.activated_at).license_exp,
                  updates_exp := (LicenseExpirations.from_product product
                    device.activated_at).updates_exp })
            from by simp [validate_license, hdev, hlic, hrev, hmem, hexp,
              hprod, hpj, hexp2]] at h
        injection h with h1 h2
        injection h2 with h3
        rw [← h3] at hv
        simp at hv
  · intro hdev
    simp [validate_license, hdev]
  · intro device hdev hlic
    simp [validate_license, hdev, hlic]
  · intro device license hdev hlic hrev
    simp [validate_license, hdev, hlic, hrev]
  · intro device license hdev hlic hrev hmem
    simp [validate_license, hdev, hlic, hrev, hmem]
  · intro device license hdev hlic hrev hmem hexp
    simp [validate_license, hdev, hlic, hrev, hmem, hexp]
  · intro device license product hdev hlic hrev hmem hexp hprod hpj
    simp [validate_license, hdev, hlic, hrev, hmem, hexp, hprod, hpj]

/-- Witness for C6: an unknown jti on the sample store yields exactly the
anonymous invalid body. -/
theorem validate_license_failure_uniform_witness :
    validate_license sampleDb { project_id := "proj1", jti := "NOPE" } 100
      = (sampleDb, .ok invalid_response) :=
  (validate_license_failure_uniform sampleDb
    { project_id := "proj1", jti := "NOPE" } 100).2.1 (by decide)

-- ============ C7: deactivate_device ============

/-- Under primary-key injectivity, the id lookup finds exactly the member
row. -/
theorem get_license_by_id_of_injective (db : Db) (license : License)
    (hinj : LicenseIdsInjective db) (hmem : license ∈ db.licenses) :
    get_license_by_id db license.id = some license := by
  unfold get_license_by_id
  rcases hfind : db.licenses.find? (fun l => l.id == license.id) with _ | l0
  · exfalso
    have hall := List.find?_eq_none.mp hfind
    exact hall license hmem (by simp)
  · have h1 := List.find?_some hfind
    have h2 := List.mem_of_find?_eq_some hfind
    have h3 : l0.id = license.id := by simpa using h1
    rw [hfind, hinj l0 h2 license hmem h3]

/-- **C7.** On every successful deactivation of `(license, device_id)`: the
device's current `jti` is appended to the license's `revoked_jtis` and every
other field of every license — `activation_count` in particular — is left
unchanged; the Device row is deleted (other devices survive); and a
subsequent validate with the old `jti` answers `{valid: false}` (given that
no foreign license's device carries that `jti`). -/
theorem deactivate_device_spec (db : Db) (request : DeactivateRequest)
    (license : License) (device : Device)
    (hinj : LicenseIdsInjective db)
    (hlic : get_license_key_by_key db request.key = some license)
    (hdev : get_device_for_license db license.id request.device_id = some device)
    (hjti : ∀ d ∈ db.devices, d.jti = device.jti → d.license_id = license.id)
    (db' : Db) (resp : DeactivateResponse)
    (h : deactivate_device db request = (db', .ok resp)) :
    db'.licenses = db.licenses.map (fun l =>
      if l.id == license.id
      then { l with revoked_jtis := license.revoked_jtis ++ [device.jti] }
      else l) ∧
    get_license_by_id db' license.id
      = some { license with revoked_jtis := license.revoked_jtis ++ [device.jti] } ∧
    db'.licenses.map (fun l => l.activation_count)
      = db.licenses.map (fun l => l.activation_count) ∧
    get_device_for_license db' license.id request.device_id = none ∧
    (∀ d ∈ db.devices,
      ¬(d.license_id = license.id ∧ d.device_id = request.device_id) →
      d ∈ db'.devices) ∧
    (∀ project_id tNow,
      (validate_license db' { project_id := project_id, jti := device.jti }
        tNow).2 = .ok invalid_response) := by
  have hmem : license ∈ db.licenses := by
    unfold get_license_key_by_key at hlic
    exact List.mem_of_find?_eq_some hlic
  have hbyid : get_license_by_id db license.id = some license :=
    get_license_by_id_of_injective db license hinj hmem
  rcases hprod : get_product_by_id db license.product_id with _ | product
  · rw [show deactivate_device db request
        = (db, .error (.Internal "Product not found")) from by
          simp [deactivate_device, hlic, hprod]] at h
    injection h with h1 h2
    cases h2
  by_cases hpj : product.project_id ≠ request.project_id
  · rw [show deactivate_device db request
        = (db, .error (.NotFound "License key not found")) from by
          simp [deactivate_device, hlic, hprod, hpj]] at h
    injection h with h1 h2
    cases h2
  have hstate : (deactivate_device db request).1
      = delete_device_by_device_id
          { db with licenses := db.licenses.map (fun l =>
              if l.id == license.id
              then { l with revoked_jtis := license.revoked_jtis ++ [device.jti] }
              else l) } license.id request.device_id := by
    simp [deactivate_device, add_revoked_jti, hlic, hprod, hpj, hdev, hbyid]
  rw [h] at hstate
  have hstate' : db' = delete_device_by_device_id
      { db with licenses := db.licenses.map (fun l =>
          if l.id == license.id
          then { l with revoked_jtis := license.revoked_jtis ++ [device.jti] }
          else l) } license.id request.device_id := hstate
  have hlics : db'.licenses = db.licenses.map (fun l =>
      if l.id == license.id
      then { l with revoked_jtis := license.revoked_jtis ++ [device.jti] }
      else l) := by
    rw [hstate']
    rfl
  have hdevs : db'.devices = db.devices.filter (fun d =>
      !(d.license_id == license.id && d.device_id == request.device_id)) := by
    rw [hstate']
    rfl
  refine ⟨hlics, ?_, ?_, ?_, ?_, ?_⟩
  · have hcomm : get_license_by_id db' license.id
        = (get_license_by_id db license.id).map (fun l =>
            if l.id == license.id
            then { l with revoked_jtis := license.revoked_jtis ++ [device.jti] }
            else l) := by
      unfold get_license_by_id
      rw [hlics]
      exact find?_map_comm _ _
        (fun a => by by_cases hx : a.id == license.id <;> simp [hx]) _
    rw [hcomm, hbyid]
    simp
  · rw [hlics, List.map_map]
    apply List.map_congr_left
    intro l _
    by_cases hx : l.id = license.id <;> simp [hx]
  · unfold get_device_for_license
    rw [hdevs, List.find?_eq_none]
    intro d hd
    have hd2 := List.of_mem_filter hd
    simp only [Bool.not_eq_true'] at hd2
    intro hcon
    rw [hd2] at hcon
    cases hcon
  · intro d hd hne
    rw [hdevs]
    apply List.mem_filter_of_mem hd
    simp only [Bool.not_eq_true']
    rw [Bool.and_eq_false_iff]
    by_cases h1 : d.license_id = license.id
    · right
      rw [beq_eq_false_iff_ne]
      intro h2
      exact hne ⟨h1, h2⟩
    · left
      rw [beq_eq_false_iff_ne]
      exact h1
  · intro project_id tNow
    rcases hfind : get_device_by_jti db' device.jti with _ | d'
    · simp [validate_license, hfind]
    · have hd'jti : d'.jti = device.jti := by
        unfold get_device_by_jti at hfind
        have h0 := List.find?_some hfind
        simpa using h0
      have hd'mem : d' ∈ db'.devices := by
        unfold get_device_by_jti at hfind
        exact List.mem_of_find?_eq_some hfind
      have hd'memdb : d' ∈ db.devices := by
        rw [hdevs] at hd'mem
        exact List.mem_of_mem_filter hd'mem
      have hd'lic : d'.license_id = license.id := hjti d' hd'memdb hd'jti
      have hlook : get_license_key_by_id db' d'.license_id
          = some { license with
              revoked_jtis := license.revoked_jtis ++ [device.jti] } := by
        unfold get_license_key_by_id
        rw [hlics, hd'lic]
        have hcomm := find?_map_comm
          (fun l : License => if l.id == license.id
            then { l with revoked_jtis := license.revoked_jtis ++ [device.jti] }
            else l)
          (fun l : License => l.id == license.id)
          (fun a => by by_cases hx : a.id == license.id <;> simp [hx])
          db.licenses
        rw [hcomm]
        rw [show db.licenses.find? (fun l => l.id == license.id)
            = some license from hbyid]
        simp
      cases hrev : license.revoked with
      | true => simp [validate_license, hfind, hlook, hrev]
      | false =>
          have hmem2 : device.jti ∈ license.revoked_jtis ++ [device.jti] := by
            simp
          simp [validate_license, hfind, hlook, hrev, hmem2]

/-- Witness for C7: deactivating `D1` on the sample store revokes `J1`,
removes the device, and the old jti no longer validates. -/
theorem deactivate_device_spec_witness :
    deactivate_device sampleDb sampleDeactivateRequest
      = ((deactivate_device sampleDb sampleDeactivateRequest).1,
         .ok { deactivated := true, remaining_devices := 0 }) ∧
    get_license_by_id (deactivate_device sampleDb sampleDeactivateRequest).1
      "lic1" = some { sampleLicense with revoked_jtis := ["J1"] } ∧
    get_device_for_license (deactivate_device sampleDb sampleDeactivateRequest).1
      "lic1" "D1" = none ∧
    (validate_license (deactivate_device sampleDb sampleDeactivateRequest).1
      { project_id := "proj1", jti := "J1" } 100).2 = .ok invalid_response := by
  have h := deactivate_device_spec sampleDb sampleDeactivateRequest
    sampleLicense sampleDevice (by decide) (by decide) (by decide) (by decide)
    (deactivate_device sampleDb sampleDeactivateRequest).1
    { deactivated := true, remaining_devices := 0 } (by decide)
  exact ⟨by decide, h.2.1, h.2.2.2.1, h.2.2.2.2.2 "proj1" 100⟩

-- ============ C8: payment_callback ============

/-- **C8.** Payment-callback redirects: an uncompleted session redirects with
`status=pending`; a completed session with a third-party `redirect_url`
carries exactly `code`, `project_id`, `status` — never the license key; only
the default success page additionally carries `license_key`. -/
theorem payment_callback_spec (db : Db) (success_page_url : String)
    (query : CallbackQuery) (tNow : Int) (freshId freshCode : String)
    (encode : String → String) :
    (∀ session, get_payment_session db query.session = some session →
      session.completed = false →
      payment_callback db success_page_url query tNow freshId freshCode encode
        = (db, .ok (append_query_params encode
            (session.redirect_url.getD success_page_url)
            [("session", query.session), ("status", "pending")]))) ∧
    (∀ session product license_id license url,
      get_payment_session db query.session = some session →
      session.completed = true →
      get_product_by_id db session.product_id = some product →
      session.license_id = some license_id →
      get_license_key_by_id db license_id = some license →
      session.redirect_url = some url →
      (payment_callback db success_page_url query tNow freshId freshCode
        encode).2 = .ok (append_query_params encode url
          [("code", freshCode), ("project_id", product.project_id),
           ("status", "success")])) ∧
    (∀ session product license_id license,
      get_payment_session db query.session = some session →
      session.completed = true →
      get_product_by_id db session.product_id = some product →
      session.license_id = some license_id →
      get_license_key_by_id db license_id = some license →
      session.redirect_url = none →
      (payment_callback db success_page_url query tNow freshId freshCode
        encode).2 = .ok (append_query_params encode success_page_url
          [("license_key", license.key), ("code", freshCode),
           ("project_id", product.project_id), ("status", "success")])) := by
  refine ⟨?_, ?_, ?_⟩
  · intro session hsess hcomp
    simp [payment_callback, hsess, hcomp]
  · intro session product license_id license url hsess hcomp hprod hlid hlic hred
    simp [payment_callback, hsess, hcomp, hprod, hlid, hlic, hred,
      create_redemption_code]
  · intro session product license_id license hsess hcomp hprod hlid hlic hred
    simp [payment_callback, hsess, hcomp, hprod, hlid, hlic, hred,
      create_redemption_code]

/-- Witness for C8: the sample session is uncompleted, so the callback
redirects to the pending page. -/
theorem payment_callback_spec_witness :
    get_payment_session sampleDb "sess1" = some sampleSession ∧
    sampleSession.completed = false ∧
    payment_callback sampleDb "https://success.example" { session := "sess1" }
      100 "rc1" "CODE1" (fun s => s)
      = (sampleDb, .ok (append_query_params (fun s => s)
          "https://success.example"
          [("session", "sess1"), ("status", "pending")])) :=
  ⟨by decide, by decide,
   (payment_callback_spec sampleDb "https://success.example"
      { session := "sess1" } 100 "rc1" "CODE1" (fun s => s)).1
      sampleSession (by decide) (by decide)⟩

-- ============ C9: send_activation_code ============

/-- **C9.** Activation-code delivery resolves per project in order: disabled
→ `Disabled` with no outbound call; webhook configured → exactly one POST to
it with header `X-Paycheck-Event: activation_code_created`, and an HTTP error
status from the webhook still reports success (`WebhookCalled`); otherwise
Resend with the org-level key when present, falling back to the system key;
no key at all → `NoApiKey` with no outbound call. -/
theorem send_activation_code_spec (svc : EmailService)
    (config : EmailSendConfig) (webhook_outcome resend_outcome : HttpOutcome)
    (parse_ok : Bool) :
    (config.project.email_enabled = false →
      svc.send_activation_code config webhook_outcome resend_outcome parse_ok
        = ([], .ok .Disabled)) ∧
    (∀ url, config.project.email_enabled = true →
      config.project.email_webhook_url = some url →
      (svc.send_activation_code config webhook_outcome resend_outcome
        parse_ok).1
        = [.webhookPost url "activation_code_created" "activation_code_created"
            config.to_email config.code] ∧
      (webhook_outcome ≠ .transportError →
        (svc.send_activation_code config webhook_outcome resend_outcome
          parse_ok).2 = .ok .WebhookCalled)) ∧
    (∀ k, config.project.email_enabled = true →
      config.project.email_webhook_url = none →
      config.org_resend_key = some k →
      (svc.send_activation_code config webhook_outcome resend_outcome
        parse_ok).1
        = [.resendPost k (config.project.email_from.getD svc.default_from_email)
            config.to_email]) ∧
    (∀ k, config.project.email_enabled = true →
      config.project.email_webhook_url = none →
      config.org_resend_key = none → svc.system_api_key = some k →
      (svc.send_activation_code config webhook_outcome resend_outcome
        parse_ok).1
        = [.resendPost k (config.project.email_from.getD svc.default_from_email)
            config.to_email]) ∧
    (config.project.email_enabled = true →
      config.project.email_webhook_url = none →
      config.org_resend_key = none → svc.system_api_key = none →
      svc.send_activation_code config webhook_outcome resend_outcome parse_ok
        = ([], .ok .NoApiKey)) := by
  refine ⟨?_, ?_, ?_, ?_, ?_⟩
  · intro hdis
    simp [EmailService.send_activation_code, hdis]
  · intro url hen hweb
    constructor
    · cases webhook_outcome <;>
        simp [EmailService.send_activation_code, EmailService.call_webhook,
          hen, hweb]
    · intro hne
      cases webhook_outcome with
      | transportError => exact absurd rfl hne
      | success =>
          simp [EmailService.send_activation_code, EmailService.call_webhook,
            hen, hweb]
      | errorStatus =>
          simp [EmailService.send_activation_code, EmailService.call_webhook,
            hen, hweb]
  · intro k hen hweb horg
    cases resend_outcome <;> cases parse_ok <;>
      simp [EmailService.send_activation_code, EmailService.send_via_resend,
        hen, hweb, horg]
  · intro k hen hweb horg hsys
    cases resend_outcome <;> cases parse_ok <;>
      simp [EmailService.send_activation_code, EmailService.send_via_resend,
        hen, hweb, horg, hsys]
  · intro hen hweb horg hsys
    simp [EmailService.send_activation_code, hen, hweb, horg, hsys]

/-- A sample email service with a system key. -/
def sampleEmailService : EmailService :=
  { system_api_key := some "sys-key", default_from_email := "noreply@x.test" }

/-- A sample single-license email configuration for a webhook-enabled
project. -/
def sampleEmailConfig : EmailSendConfig :=
  { to_email := "user@x.test", code := "PC-CODE", expires_in_minutes := 30,
    product_name := "Pro Plan", project_name := "Proj",
    project := { sampleProject with
      email_webhook_url := some "https://hooks.x.test/paycheck" },
    license_id := "lic1", purchased_at := 0, org_resend_key := none,
    trigger := .Purchase }

/-- Witness for C9: with a webhook URL configured, an HTTP error status from
the webhook still reports `WebhookCalled`, and exactly one POST with the
`X-Paycheck-Event: activation_code_created` header is issued. -/
theorem send_activation_code_spec_witness :
    (sampleEmailService.send_activation_code sampleEmailConfig
      HttpOutcome.errorStatus HttpOutcome.success true).1
      = [.webhookPost "https://hooks.x.test/paycheck" "activation_code_created"
          "activation_code_created" "user@x.test" "PC-CODE"] ∧
    (sampleEmailService.send_activation_code sampleEmailConfig
      HttpOutcome.errorStatus HttpOutcome.success true).2
      = .ok .WebhookCalled := by
  have h := (send_activation_code_spec sampleEmailService sampleEmailConfig
    HttpOutcome.errorStatus HttpOutcome.success true).2.1
    "https://hooks.x.test/paycheck" (by decide) (by decide)
  exact ⟨h.1, h.2 (by decide)⟩

-- ============ C2 / C3 / C10: the payment reconciliation protocol ============

/-- `queries.rs::try_claim_payment_session`: compare-and-swap
`UPDATE payment_sessions SET completed = 1 WHERE id = ? AND completed = 0`;
true iff a row was claimed.  Defined in the source but called by no handler. -/
def try_claim_payment_session (db : Db) (id : String) : Db × Bool :=
  let affected := db.payment_sessions.filter
    (fun s => s.id == id && s.completed == false)
  ({ db with payment_sessions := db.payment_sessions.map (fun s =>
      if s.id == id && s.completed == false
      then { s with completed := true } else s) },
   affected.length > 0)

/-- `queries.rs::set_payment_session_license`:
`UPDATE payment_sessions SET license_id = ? WHERE id = ?`.  Defined in the
source ("Called after try_claim_payment_session succeeds and license is
created") but called by no handler. -/
def set_payment_session_license (db : Db) (session_id license_id : String) : Db :=
  { db with payment_sessions := db.payment_sessions.map (fun s =>
      if s.id == session_id then { s with license_id := some license_id } else s) }

/-- `queries.rs::try_record_webhook_event`:
`INSERT OR IGNORE INTO webhook_events (id, provider, event_id, created_at)`;
true iff the `(provider, event_id)` pair was new.  Defined in the source but
called by no handler. -/
def try_record_webhook_event (db : Db) (provider event_id : String)
    (tNow : Int) (freshId : String) : Db × Bool :=
  if (db.webhook_events.find? (fun e =>
      e.provider == provider && e.event_id == event_id)).isSome
  then (db, false)
  else ({ db with webhook_events := db.webhook_events ++
      [{ id := freshId, provider := provider, event_id := event_id,
         created_at := tNow }] }, true)

/-- A paid `checkout.session.completed` payload pointing at the sample
session and project. -/
def c2Session : StripeCheckoutSession :=
  { metadata := { paycheck_session_id := some "sess1",
                  project_id := some "proj1" },
    payment_status := "paid", customer_email := some "user@x.test",
    customer := none, subscription := none }

/-- `find?` on a list extended with a fresh matching element. -/
theorem find?_fresh_append {α : Type} (l : List α) (a : α) (p : α → Bool)
    (hnone : ∀ x ∈ l, p x = false) (hpa : p a = true) :
    (l ++ [a]).find? p = some a := by
  rw [find?_append_of_none _ (List.find?_eq_none.mpr (by
    intro x hx
    simp [hnone x hx]))]
  simp [List.find?_cons, hpa]

/-- Marking a session completed rewrites only the matching session's
`completed` flag, visible through the id lookup. -/
theorem get_payment_session_mark (db : Db) (id p : String) :
    get_payment_session (mark_payment_session_completed db id) p
      = (get_payment_session db p).map (fun s =>
          if s.id == id then { s with completed := true } else s) := by
  unfold get_payment_session mark_payment_session_completed
  exact find?_map_comm _ _ (fun a => by by_cases hx : a.id == id <;> simp [hx]) _

/-- Marking a session touches no license. -/
theorem get_license_by_id_mark (db : Db) (sid i : String) :
    get_license_by_id (mark_payment_session_completed db sid) i
      = get_license_by_id db i := rfl

/-- Marking a session touches no device. -/
theorem get_device_for_license_mark (db : Db) (sid lid did : String) :
    get_device_for_license (mark_payment_session_completed db sid) lid did
      = get_device_for_license db lid did := rfl

/-- Incrementing an activation count touches no device. -/
theorem get_device_for_license_increment (db : Db) (lid' lid did : String) :
    get_device_for_license (increment_activation_count db lid') lid did
      = get_device_for_license db lid did := rfl

/-- Incrementing an activation count touches no payment session. -/
theorem get_payment_session_increment (db : Db) (lid' p : String) :
    get_payment_session (increment_activation_count db lid') p
      = get_payment_session db p := rfl

/-- **C10.** On the Stripe checkout happy path (metadata present, project
found and configured, signature valid, payment `paid`, session found and not
completed, product found) `handle_checkout_completed` answers `200 OK`, and
in the final state: a fresh License exists with `activation_count` 0
incremented to 1 — left at 0 when the increment's storage write fails, which
the source only logs; a Device bound to the payment session's stored
`device_id` carries the fresh `jti`; the session's `completed` flag is
written last — left `false` when that write fails (also only logged) — and
the session's `license_id` is never written.  With `mark_fails = true` a
license with a pre-activated device exists while the session is still not
completed. -/
theorem handle_checkout_completed_spec
    (db : Db) (session : StripeCheckoutSession) (tNow : Int)
    (freshLicenseId freshLicenseKey freshDeviceId freshJti : String)
    (inc_fails mark_fails : Bool)
    (paycheck_session_id project_id : String) (project : Project)
    (payment_session : PaymentSession) (product : Product)
    (hmeta1 : session.metadata.paycheck_session_id = some paycheck_session_id)
    (hmeta2 : session.metadata.project_id = some project_id)
    (hproj : get_project_by_id db project_id = some project)
    (hcfg : project.stripe_configured = true)
    (hpaid : session.payment_status = "paid")
    (hsess : get_payment_session db paycheck_session_id = some payment_session)
    (hnc : payment_session.completed = false)
    (hprod : get_product_by_id db payment_session.product_id = some product)
    (hfreshl : ∀ l ∈ db.licenses, l.id ≠ freshLicenseId)
    (hfreshd : ∀ d ∈ db.devices, d.license_id ≠ freshLicenseId)
    (st : Db) (code : Nat) (msg : String)
    (h : handle_checkout_completed db session true tNow freshLicenseId
      freshLicenseKey freshDeviceId freshJti inc_fails mark_fails
      = (st, code, msg)) :
    code = 200 ∧ msg = "OK" ∧
    get_license_by_id st freshLicenseId = some
      { id := freshLicenseId, key := freshLicenseKey, email_hash := none,
        project_id := project_id, product_id := payment_session.product_id,
        customer_id := none,
        activation_count := if inc_fails then 0 else 1,
        revoked := false, revoked_jtis := [], created_at := tNow,
        expires_at := product.license_exp_days.map
          (fun days => tNow + days * 86400),
        updates_expires_at := product.updates_exp_days.map
          (fun days => tNow + days * 86400),
        payment_provider := some "stripe",
        payment_provider_customer_id := session.customer,
        payment_provider_subscription_id := session.subscription,
        payment_provider_order_id := none } ∧
    get_device_for_license st freshLicenseId payment_session.device_id = some
      { id := freshDeviceId, license_id := freshLicenseId,
        device_id := payment_session.device_id,
        device_type := payment_session.device_type, name := none,
        jti := freshJti, activated_at := tNow, last_seen_at := tNow } ∧
    (get_payment_session st paycheck_session_id).map (fun s => s.completed)
      = some (!mark_fails) ∧
    (get_payment_session st paycheck_session_id).map (fun s => s.license_id)
      = some payment_session.license_id := by
  have hpsid : (payment_session.id == paycheck_session_id) = true := by
    unfold get_payment_session at hsess
    have h0 := List.find?_some hsess
    simpa using h0
  have hpsidP : payment_session.id = paycheck_session_id := by simpa using hpsid
  cases inc_fails with
  | false =>
    cases mark_fails with
    | false =>
      have hstate : (handle_checkout_completed db session true tNow freshLicenseId
          freshLicenseKey freshDeviceId freshJti false false).1
          = mark_payment_session_completed
        (increment_activation_count
        ({ db with
            licenses := db.licenses ++
              [{ id := freshLicenseId, key := freshLicenseKey,
                        email_hash := none, project_id := project_id,
                        product_id := payment_session.product_id,
                        customer_id := none, activation_count := 0, revoked := false,
                        revoked_jtis := [], created_at := tNow,
                        expires_at := product.license_exp_days.map
                                 (fun days => tNow + days * 86400),
                        updates_expires_at := product.updates_exp_days.map
                                 (fun days => tNow + days * 86400),
                        payment_provider := some "stripe",
                        payment_provider_customer_id := session.customer,
                        payment_provider_subscription_id := session.subscription,
                        payment_provider_order_id := none }],
            devices := db.devices ++
              [{ id := freshDeviceId, license_id := freshLicenseId,
                        device_id := payment_session.device_id,
                        device_type := payment_session.device_type, name := none,
                        jti := freshJti, activated_at := tNow, last_seen_at := tNow }] }) freshLicenseId) paycheck_session_id := by
        simp [handle_checkout_completed, hmeta1, hmeta2, hproj, hcfg, hpaid,
          hsess, hnc, hprod, create_license_key, create_device]
      have hret2 : (handle_checkout_completed db session true tNow freshLicenseId
          freshLicenseKey freshDeviceId freshJti false false).2 = (200, "OK") := by
        simp [handle_checkout_completed, hmeta1, hmeta2, hproj, hcfg, hpaid,
          hsess, hnc, hprod, create_license_key, create_device]
      rw [h] at hstate hret2
      have hst : st = mark_payment_session_completed
        (increment_activation_count
        ({ db with
            licenses := db.licenses ++
              [{ id := freshLicenseId, key := freshLicenseKey,
                        email_hash := none, project_id := project_id,
                        product_id := payment_session.product_id,
                        customer_id := none, activation_count := 0, revoked := false,
                        revoked_jtis := [], created_at := tNow,
                        expires_at := product.license_exp_days.map
                                 (fun days => tNow + days * 86400),
                        updates_expires_at := product.updates_exp_days.map
                                 (fun days => tNow + days * 86400),
                        payment_provider := some "stripe",
                        payment_provider_customer_id := session.customer,
                        payment_provider_subscription_id := session.subscription,
                        payment_provider_order_id := none }],
            devices := db.devices ++
              [{ id := freshDeviceId, license_id := freshLicenseId,
                        device_id := payment_session.device_id,
                        device_type := payment_session.device_type, name := none,
                        jti := freshJti, activated_at := tNow, last_seen_at := tNow }] }) freshLicenseId) paycheck_session_id := hstate
      have hb1 : get_license_by_id
          ({ db with
            licenses := db.licenses ++
              [{ id := freshLicenseId, key := freshLicenseKey,
                        email_hash := none, project_id := project_id,
                        product_id := payment_session.product_id,
                        customer_id := none, activation_count := 0, revoked := false,
                        revoked_jtis := [], created_at := tNow,
                        expires_at := product.license_exp_days.map
                                 (fun days => tNow + days * 86400),
                        updates_expires_at := product.updates_exp_days.map
                                 (fun days => tNow + days * 86400),
                        payment_provider := some "stripe",
                        payment_provider_customer_id := session.customer,
                        payment_provider_subscription_id := session.subscription,
                        payment_provider_order_id := none }],
            devices := db.devices ++
              [{ id := freshDeviceId, license_id := freshLicenseId,
                        device_id := payment_session.device_id,
                        device_type := payment_session.device_type, name := none,
                        jti := freshJti, activated_at := tNow, last_seen_at := tNow }] }) freshLicenseId
          = some { id := freshLicenseId, key := freshLicenseKey,
                        email_hash := none, project_id := project_id,
                        product_id := payment_session.product_id,
                        customer_id := none, activation_count := 0, revoked := false,
                        revoked_jtis := [], created_at := tNow,
                        expires_at := product.license_exp_days.map
                                 (fun days => tNow + days * 86400),
                        updates_expires_at := product.updates_exp_days.map
                                 (fun days => tNow + days * 86400),
                        payment_provider := some "stripe",
                        payment_provider_customer_id := session.customer,
                        payment_provider_subscription_id := session.subscription,
                        payment_provider_order_id := none } := by
        unfold get_license_by_id
        exact find?_fresh_append _ _ _
          (fun l hl => by simp [beq_eq_false_iff_ne, hfreshl l hl]) (by simp)
      have hb2 : get_device_for_license
          ({ db with
            licenses := db.licenses ++
              [{ id := freshLicenseId, key := freshLicenseKey,
                        email_hash := none, project_id := project_id,
                        product_id := payment_session.product_id,
                        customer_id := none, activation_count := 0, revoked := false,
                        revoked_jtis := [], created_at := tNow,
                        expires_at := product.license_exp_days.map
                                 (fun days => tNow + days * 86400),
                        updates_expires_at := product.updates_exp_days.map
                                 (fun days => tNow + days * 86400),
                        payment_provider := some "stripe",
                        payment_provider_customer_id := session.customer,
                        payment_provider_subscription_id := session.subscription,
                        payment_provider_order_id := none }],
            devices := db.devices ++
              [{ id := freshDeviceId, license_id := freshLicenseId,
                        device_id := payment_session.device_id,
                        device_type := payment_session.device_type, name := none,
                        jti := freshJti, activated_at := tNow, last_seen_at := tNow }] }) freshLicenseId payment_session.device_id
          = some { id := freshDeviceId, license_id := freshLicenseId,
                        device_id := payment_session.device_id,
                        device_type := payment_session.device_type, name := none,
                        jti := freshJti, activated_at := tNow, last_seen_at := tNow } := by
        unfold get_device_for_license
        exact find?_fresh_append _ _ _
          (fun d hd => by simp [beq_eq_false_iff_ne, hfreshd d hd]) (by simp)
      have hbp : get_payment_session
          ({ db with
            licenses := db.licenses ++
              [{ id := freshLicenseId, key := freshLicenseKey,
                        email_hash := none, project_id := project_id,
                        product_id := payment_session.product_id,
                        customer_id := none, activation_count := 0, revoked := false,
                        revoked_jtis := [], created_at := tNow,
                        expires_at := product.license_exp_days.map
                                 (fun days => tNow + days * 86400),
                        updates_expires_at := product.updates_exp_days.map
                                 (fun days => tNow + days * 86400),
                        payment_provider := some "stripe",
                        payment_provider_customer_id := session.customer,
                        payment_provider_subscription_id := session.subscription,
                        payment_provider_order_id := none }],
            devices := db.devices ++
              [{ id := freshDeviceId, license_id := freshLicenseId,
                        device_id := payment_session.device_id,
                        device_type := payment_session.device_type, name := none,
                        jti := freshJti, activated_at := tNow, last_seen_at := tNow }] }) paycheck_session_id = some payment_session := hsess
      refine ⟨congrArg Prod.fst hret2, congrArg Prod.snd hret2, ?_, ?_, ?_, ?_⟩
      · rw [hst, get_license_by_id_mark, get_license_by_id_increment, hb1]
        simp
      · rw [hst, get_device_for_license_mark, get_device_for_license_increment, hb2]
      · rw [hst, get_payment_session_mark, get_payment_session_increment, hbp]
        simp [hpsidP]
      · rw [hst, get_payment_session_mark, get_payment_session_increment, hbp]
        simp [hpsidP]
    | true =>
      have hstate : (handle_checkout_completed db session true tNow freshLicenseId
          freshLicenseKey freshDeviceId freshJti false true).1
          = increment_activation_count
        ({ db with
            licenses := db.licenses ++
              [{ id := freshLicenseId, key := freshLicenseKey,
                        email_hash := none, project_id := project_id,
                        product_id := payment_session.product_id,
                        customer_id := none, activation_count := 0, revoked := false,
                        revoked_jtis := [], created_at := tNow,
                        expires_at := product.license_exp_days.map
                                 (fun days => tNow + days * 86400),
                        updates_expires_at := product.updates_exp_days.map
                                 (fun days => tNow + days * 86400),
                        payment_provider := some "stripe",
                        payment_provider_customer_id := session.customer,
                        payment_provider_subscription_id := session.subscription,
                        payment_provider_order_id := none }],
            devices := db.devices ++
              [{ id := freshDeviceId, license_id := freshLicenseId,
                        device_id := payment_session.device_id,
                        device_type := payment_session.device_type, name := none,
                        jti := freshJti, activated_at := tNow, last_seen_at := tNow }] }) freshLicenseId := by
        simp [handle_checkout_completed, hmeta1, hmeta2, hproj, hcfg, hpaid,
          hsess, hnc, hprod, create_license_key, create_device]
      have hret2 : (handle_checkout_completed db session true tNow freshLicenseId
          freshLicenseKey freshDeviceId freshJti false true).2 = (200, "OK") := by
        simp [handle_checkout_completed, hmeta1, hmeta2, hproj, hcfg, hpaid,
          hsess, hnc, hprod, create_license_key, create_device]
      rw [h] at hstate hret2
      have hst : st = increment_activation_count
        ({ db with
            licenses := db.licenses ++
              [{ id := freshLicenseId, key := freshLicenseKey,
                        email_hash := none, project_id := project_id,
                        product_id := payment_session.product_id,
                        customer_id := none, activation_count := 0, revoked := false,
                        revoked_jtis := [], created_at := tNow,
                        expires_at := product.license_exp_days.map
                                 (fun days => tNow + days * 86400),
                        updates_expires_at := product.updates_exp_days.map
                                 (fun days => tNow + days * 86400),
                        payment_provider := some "stripe",
                        payment_provider_customer_id := session.customer,
                        payment_provider_subscription_id := session.subscription,
                        payment_provider_order_id := none }],
            devices := db.devices ++
              [{ id := freshDeviceId, license_id := freshLicenseId,
                        device_id := payment_session.device_id,
                        device_type := payment_session.device_type, name := none,
                        jti := freshJti, activated_at := tNow, last_seen_at := tNow }] }) freshLicenseId := hstate
      have hb1 : get_license_by_id
          ({ db with
            licenses := db.licenses ++
              [{ id := freshLicenseId, key := freshLicenseKey,
                        email_hash := none, project_id := project_id,
                        product_id := payment_session.product_id,
                        customer_id := none, activation_count := 0, revoked := false,
                        revoked_jtis := [], created_at := tNow,
                        expires_at := product.license_exp_days.map
                                 (fun days => tNow + days * 86400),
                        updates_expires_at := product.updates_exp_days.map
                                 (fun days => tNow + days * 86400),
                        payment_provider := some "stripe",
                        payment_provider_customer_id := session.customer,
                        payment_provider_subscription_id := session.subscription,
                        payment_provider_order_id := none }],
            devices := db.devices ++
              [{ id := freshDeviceId, license_id := freshLicenseId,
                        device_id := payment_session.device_id,
                        device_type := payment_session.device_type, name := none,
                        jti := freshJti, activated_at := tNow, last_seen_at := tNow }] }) freshLicenseId
          = some { id := freshLicenseId, key := freshLicenseKey,
                        email_hash := none, project_id := project_id,
                        product_id := payment_session.product_id,
                        customer_id := none, activation_count := 0, revoked := false,
                        revoked_jtis := [], created_at := tNow,
                        expires_at := product.license_exp_days.map
                                 (fun days => tNow + days * 86400),
                        updates_expires_at := product.updates_exp_days.map
                                 (fun days => tNow + days * 86400),
                        payment_provider := some "stripe",
                        payment_provider_customer_id := session.customer,
                        payment_provider_subscription_id := session.subscription,
                        payment_provider_order_id := none } := by
        unfold get_license_by_id
        exact find?_fresh_append _ _ _
          (fun l hl => by simp [beq_eq_false_iff_ne, hfreshl l hl]) (by simp)
      have hb2 : get_device_for_license
          ({ db with
            licenses := db.licenses ++
              [{ id := freshLicenseId, key := freshLicenseKey,
                        email_hash := none, project_id := project_id,
                        product_id := payment_session.product_id,
                        customer_id := none, activation_count := 0, revoked := false,
                        revoked_jtis := [], created_at := tNow,
                        expires_at := product.license_exp_days.map
                                 (fun days => tNow + days * 86400),
                        updates_expires_at := product.updates_exp_days.map
                                 (fun days => tNow + days * 86400),
                        payment_provider := some "stripe",
                        payment_provider_customer_id := session.customer,
                        payment_provider_subscription_id := session.subscription,
                        payment_provider_order_id := none }],
            devices := db.devices ++
              [{ id := freshDeviceId, license_id := freshLicenseId,
                        device_id := payment_session.device_id,
                        device_type := payment_session.device_type, name := none,
                        jti := freshJti, activated_at := tNow, last_seen_at := tNow }] }) freshLicenseId payment_session.device_id
          = some { id := freshDeviceId, license_id := freshLicenseId,
                        device_id := payment_session.device_id,
                        device_type := payment_session.device_type, name := none,
                        jti := freshJti, activated_at := tNow, last_seen_at := tNow } := by
        unfold get_device_for_license
        exact find?_fresh_append _ _ _
          (fun d hd => by simp [beq_eq_false_iff_ne, hfreshd d hd]) (by simp)
      have hbp : get_payment_session
          ({ db with
            licenses := db.licenses ++
              [{ id := freshLicenseId, key := freshLicenseKey,
                        email_hash := none, project_id := project_id,
                        product_id := payment_session.product_id,
                        customer_id := none, activation_count := 0, revoked := false,
                        revoked_jtis := [], created_at := tNow,
                        expires_at := product.license_exp_days.map
                                 (fun days => tNow + days * 86400),
                        updates_expires_at := product.updates_exp_days.map
                                 (fun days => tNow + days * 86400),
                        payment_provider := some "stripe",
                        payment_provider_customer_id := session.customer,
                        payment_provider_subscription_id := session.subscription,
                        payment_provider_order_id := none }],
            devices := db.devices ++
              [{ id := freshDeviceId, license_id := freshLicenseId,
                        device_id := payment_session.device_id,
                        device_type := payment_session.device_type, name := none,
                        jti := freshJti, activated_at := tNow, last_seen_at := tNow }] }) paycheck_session_id = some payment_session := hsess
      refine ⟨congrArg Prod.fst hret2, congrArg Prod.snd hret2, ?_, ?_, ?_, ?_⟩
      · rw [hst, get_license_by_id_increment, hb1]
        simp
      · rw [hst, get_device_for_license_increment, hb2]
      · rw [hst, get_payment_session_increment, hbp]
        simp [hnc]
      · rw [hst, get_payment_session_increment, hbp]
        simp [hnc]
  | true =>
    cases mark_fails with
    | false =>
      have hstate : (handle_checkout_completed db session true tNow freshLicenseId
          freshLicenseKey freshDeviceId freshJti true false).1
          = mark_payment_session_completed
        ({ db with
            licenses := db.licenses ++
              [{ id := freshLicenseId, key := freshLicenseKey,
                        email_hash := none, project_id := project_id,
                        product_id := payment_session.product_id,
                        customer_id := none, activation_count := 0, revoked := false,
                        revoked_jtis := [], created_at := tNow,
                        expires_at := product.license_exp_days.map
                                 (fun days => tNow + days * 86400),
                        updates_expires_at := product.updates_exp_days.map
                                 (fun days => tNow + days * 86400),
                        payment_provider := some "stripe",
                        payment_provider_customer_id := session.customer,
                        payment_provider_subscription_id := session.subscription,
                        payment_provider_order_id := none }],
            devices := db.devices ++
              [{ id := freshDeviceId, license_id := freshLicenseId,
                        device_id := payment_session.device_id,
                        device_type := payment_session.device_type, name := none,
                        jti := freshJti, activated_at := tNow, last_seen_at := tNow }] }) paycheck_session_id := by
        simp [handle_checkout_completed, hmeta1, hmeta2, hproj, hcfg, hpaid,
          hsess, hnc, hprod, create_license_key, create_device]
      have hret2 : (handle_checkout_completed db session true tNow freshLicenseId
          freshLicenseKey freshDeviceId freshJti true false).2 = (200, "OK") := by
        simp [handle_checkout_completed, hmeta1, hmeta2, hproj, hcfg, hpaid,
          hsess, hnc, hprod, create_license_key, create_device]
      rw [h] at hstate hret2
      have hst : st = mark_payment_session_completed
        ({ db with
            licenses := db.licenses ++
              [{ id := freshLicenseId, key := freshLicenseKey,
                        email_hash := none, project_id := project_id,
                        product_id := payment_session.product_id,
                        customer_id := none, activation_count := 0, revoked := false,
                        revoked_jtis := [], created_at := tNow,
                        expires_at := product.license_exp_days.map
                                 (fun days => tNow + days * 86400),
                        updates_expires_at := product.updates_exp_days.map
                                 (fun days => tNow + days * 86400),
                        payment_provider := some "stripe",
                        payment_provider_customer_id := session.customer,
                        payment_provider_subscription_id := session.subscription,
                        payment_provider_order_id := none }],
            devices := db.devices ++
              [{ id := freshDeviceId, license_id := freshLicenseId,
                        device_id := payment_session.device_id,
                        device_type := payment_session.device_type, name := none,
                        jti := freshJti, activated_at := tNow, last_seen_at := tNow }] }) paycheck_session_id := hstate
      have hb1 : get_license_by_id
          ({ db with
            licenses := db.licenses ++
              [{ id := freshLicenseId, key := freshLicenseKey,
                        email_hash := none, project_id := project_id,
                        product_id := payment_session.product_id,
                        customer_id := none, activation_count := 0, revoked := false,
                        revoked_jtis := [], created_at := tNow,
                        expires_at := product.license_exp_days.map
                                 (fun days => tNow + days * 86400),
                        updates_expires_at := product.updates_exp_days.map
                                 (fun days => tNow + days * 86400),
                        payment_provider := some "stripe",
                        payment_provider_customer_id := session.customer,
                        payment_provider_subscription_id := session.subscription,
                        payment_provider_order_id := none }],
            devices := db.devices ++
              [{ id := freshDeviceId, license_id := freshLicenseId,
                        device_id := payment_session.device_id,
                        device_type := payment_session.device_type, name := none,
                        jti := freshJti, activated_at := tNow, last_seen_at := tNow }] }) freshLicenseId
          = some { id := freshLicenseId, key := freshLicenseKey,
                        email_hash := none, project_id := project_id,
                        product_id := payment_session.product_id,
                        customer_id := none, activation_count := 0, revoked := false,
                        revoked_jtis := [], created_at := tNow,
                        expires_at := product.license_exp_days.map
                                 (fun days => tNow + days * 86400),
                        updates_expires_at := product.updates_exp_days.map
                                 (fun days => tNow + days * 86400),
                        payment_provider := some "stripe",
                        payment_provider_customer_id := session.customer,
                        payment_provider_subscription_id := session.subscription,
                        payment_provider_order_id := none } := by
        unfold get_license_by_id
        exact find?_fresh_append _ _ _
          (fun l hl => by simp [beq_eq_false_iff_ne, hfreshl l hl]) (by simp)
      have hb2 : get_device_for_license
          ({ db with
            licenses := db.licenses ++
              [{ id := freshLicenseId, key := freshLicenseKey,
                        email_hash := none, project_id := project_id,
                        product_id := payment_session.product_id,
                        customer_id := none, activation_count := 0, revoked := false,
                        revoked_jtis := [], created_at := tNow,
                        expires_at := product.license_exp_days.map
                                 (fun days => tNow + days * 86400),
                        updates_expires_at := product.updates_exp_days.map
                                 (fun days => tNow + days * 86400),
                        payment_provider := some "stripe",
                        payment_provider_customer_id := session.customer,
                        payment_provider_subscription_id := session.subscription,
                        payment_provider_order_id := none }],
            devices := db.devices ++
              [{ id := freshDeviceId, license_id := freshLicenseId,
                        device_id := payment_session.device_id,
                        device_type := payment_session.device_type, name := none,
                        jti := freshJti, activated_at := tNow, last_seen_at := tNow }] }) freshLicenseId payment_session.device_id
          = some { id := freshDeviceId, license_id := freshLicenseId,
                        device_id := payment_session.device_id,
                        device_type := payment_session.device_type, name := none,
                        jti := freshJti, activated_at := tNow, last_seen_at := tNow } := by
        unfold get_device_for_license
        exact find?_fresh_append _ _ _
          (fun d hd => by simp [beq_eq_false_iff_ne, hfreshd d hd]) (by simp)
      have hbp : get_payment_session
          ({ db with
            licenses := db.licenses ++
              [{ id := freshLicenseId, key := freshLicenseKey,
                        email_hash := none, project_id := project_id,
                        product_id := payment_session.product_id,
                        customer_id := none, activation_count := 0, revoked := false,
                        revoked_jtis := [], created_at := tNow,
                        expires_at := product.license_exp_days.map
                                 (fun days => tNow + days * 86400),
                        updates_expires_at := product.updates_exp_days.map
                                 (fun days => tNow + days * 86400),
                        payment_provider := some "stripe",
                        payment_provider_customer_id := session.customer,
                        payment_provider_subscription_id := session.subscription,
                        payment_provider_order_id := none }],
            devices := db.devices ++
              [{ id := freshDeviceId, license_id := freshLicenseId,
                        device_id := payment_session.device_id,
                        device_type := payment_session.device_type, name := none,
                        jti := freshJti, activated_at := tNow, last_seen_at := tNow }] }) paycheck_session_id = some payment_session := hsess
      refine ⟨congrArg Prod.fst hret2, congrArg Prod.snd hret2, ?_, ?_, ?_, ?_⟩
      · rw [hst, get_license_by_id_mark, hb1]
        simp
      · rw [hst, get_device_for_license_mark, hb2]
      · rw [hst, get_payment_session_mark, hbp]
        simp [hpsidP]
      · rw [hst, get_payment_session_mark, hbp]
        simp [hpsidP]
    | true =>
      have hstate : (handle_checkout_completed db session true tNow freshLicenseId
          freshLicenseKey freshDeviceId freshJti true true).1
          = { db with
            licenses := db.licenses ++
              [{ id := freshLicenseId, key := freshLicenseKey,
                        email_hash := none, project_id := project_id,
                        product_id := payment_session.product_id,
                        customer_id := none, activation_count := 0, revoked := false,
                        revoked_jtis := [], created_at := tNow,
                        expires_at := product.license_exp_days.map
                                 (fun days => tNow + days * 86400),
                        updates_expires_at := product.updates_exp_days.map
                                 (fun days => tNow + days * 86400),
                        payment_provider := some "stripe",
                        payment_provider_customer_id := session.customer,
                        payment_provider_subscription_id := session.subscription,
                        payment_provider_order_id := none }],
            devices := db.devices ++
              [{ id := freshDeviceId, license_id := freshLicenseId,
                        device_id := payment_session.device_id,
                        device_type := payment_session.device_type, name := none,
                        jti := freshJti, activated_at := tNow, last_seen_at := tNow }] } := by
        simp [handle_checkout_completed, hmeta1, hmeta2, hproj, hcfg, hpaid,
          hsess, hnc, hprod, create_license_key, create_device]
      have hret2 : (handle_checkout_completed db session true tNow freshLicenseId
          freshLicenseKey freshDeviceId freshJti true true).2 = (200, "OK") := by
        simp [handle_checkout_completed, hmeta1, hmeta2, hproj, hcfg, hpaid,
          hsess, hnc, hprod, create_license_key, create_device]
      rw [h] at hstate hret2
      have hst : st = { db with
            licenses := db.licenses ++
              [{ id := freshLicenseId, key := freshLicenseKey,
                        email_hash := none, project_id := project_id,
                        product_id := payment_session.product_id,
                        customer_id := none, activation_count := 0, revoked := false,
                        revoked_jtis := [], created_at := tNow,
                        expires_at := product.license_exp_days.map
                                 (fun days => tNow + days * 86400),
                        updates_expires_at := product.updates_exp_days.map
                                 (fun days => tNow + days * 86400),
                        payment_provider := some "stripe",
                        payment_provider_customer_id := session.customer,
                        payment_provider_subscription_id := session.subscription,
                        payment_provider_order_id := none }],
            devices := db.devices ++
              [{ id := freshDeviceId, license_id := freshLicenseId,
                        device_id := payment_session.device_id,
                        device_type := payment_session.device_type, name := none,
                        jti := freshJti, activated_at := tNow, last_seen_at := tNow }] } := hstate
      have hb1 : get_license_by_id
          ({ db with
            licenses := db.licenses ++
              [{ id := freshLicenseId, key := freshLicenseKey,
                        email_hash := none, project_id := project_id,
                        product_id := payment_session.product_id,
                        customer_id := none, activation_count := 0, revoked := false,
                        revoked_jtis := [], created_at := tNow,
                        expires_at := product.license_exp_days.map
                                 (fun days => tNow + days * 86400),
                        updates_expires_at := product.updates_exp_days.map
                                 (fun days => tNow + days * 86400),
                        payment_provider := some "stripe",
                        payment_provider_customer_id := session.customer,
                        payment_provider_subscription_id := session.subscription,
                        payment_provider_order_id := none }],
            devices := db.devices ++
              [{ id := freshDeviceId, license_id := freshLicenseId,
                        device_id := payment_session.device_id,
                        device_type := payment_session.device_type, name := none,
                        jti := freshJti, activated_at := tNow, last_seen_at := tNow }] }) freshLicenseId
          = some { id := freshLicenseId, key := freshLicenseKey,
                        email_hash := none, project_id := project_id,
                        product_id := payment_session.product_id,
                        customer_id := none, activation_count := 0, revoked := false,
                        revoked_jtis := [], created_at := tNow,
                        expires_at := product.license_exp_days.map
                                 (fun days => tNow + days * 86400),
                        updates_expires_at := product.updates_exp_days.map
                                 (fun days => tNow + days * 86400),
                        payment_provider := some "stripe",
                        payment_provider_customer_id := session.customer,
                        payment_provider_subscription_id := session.subscription,
                        payment_provider_order_id := none } := by
        unfold get_license_by_id
        exact find?_fresh_append _ _ _
          (fun l hl => by simp [beq_eq_false_iff_ne, hfreshl l hl]) (by simp)
      have hb2 : get_device_for_license
          ({ db with
            licenses := db.licenses ++
              [{ id := freshLicenseId, key := freshLicenseKey,
                        email_hash := none, project_id := project_id,
                        product_id := payment_session.product_id,
                        customer_id := none, activation_count := 0, revoked := false,
                        revoked_jtis := [], created_at := tNow,
                        expires_at := product.license_exp_days.map
                                 (fun days => tNow + days * 86400),
                        updates_expires_at := product.updates_exp_days.map
                                 (fun days => tNow + days * 86400),
                        payment_provider := some "stripe",
                        payment_provider_customer_id := session.customer,
                        payment_provider_subscription_id := session.subscription,
                        payment_provider_order_id := none }],
            devices := db.devices ++
              [{ id := freshDeviceId, license_id := freshLicenseId,
                        device_id := payment_session.device_id,
                        device_type := payment_session.device_type, name := none,
                        jti := freshJti, activated_at := tNow, last_seen_at := tNow }] }) freshLicenseId payment_session.device_id
          = some { id := freshDeviceId, license_id := freshLicenseId,
                        device_id := payment_session.device_id,
                        device_type := payment_session.device_type, name := none,
                        jti := freshJti, activated_at := tNow, last_seen_at := tNow } := by
        unfold get_device_for_license
        exact find?_fresh_append _ _ _
          (fun d hd => by simp [beq_eq_false_iff_ne, hfreshd d hd]) (by simp)
      have hbp : get_payment_session
          ({ db with
            licenses := db.licenses ++
              [{ id := freshLicenseId, key := freshLicenseKey,
                        email_hash := none, project_id := project_id,
                        product_id := payment_session.product_id,
                        customer_id := none, activation_count := 0, revoked := false,
                        revoked_jtis := [], created_at := tNow,
                        expires_at := product.license_exp_days.map
                                 (fun days => tNow + days * 86400),
                        updates_expires_at := product.updates_exp_days.map
                                 (fun days => tNow + days * 86400),
                        payment_provider := some "stripe",
                        payment_provider_customer_id := session.customer,
                        payment_provider_subscription_id := session.subscription,
                        payment_provider_order_id := none }],
            devices := db.devices ++
              [{ id := freshDeviceId, license_id := freshLicenseId,
                        device_id := payment_session.device_id,
                        device_type := payment_session.device_type, name := none,
                        jti := freshJti, activated_at := tNow, last_seen_at := tNow }] }) paycheck_session_id = some payment_session := hsess
      refine ⟨congrArg Prod.fst hret2, congrArg Prod.snd hret2, ?_, ?_, ?_, ?_⟩
      · rw [hst, hb1]
        simp
      · rw [hst, hb2]
      · rw [hst, hbp]
        simp [hnc]
      · rw [hst, hbp]
        simp [hnc]

/-- Witness for C10: a successful checkout whose completion mark fails
(`mark_fails = true`) leaves a license and its pre-activated device in the
store while the payment session is still not completed. -/
theorem handle_checkout_completed_spec_witness :
    (get_payment_session (handle_checkout_completed sampleDb c2Session true 500
        "licN" "KEY-N" "devN" "JN" false true).1 "sess1").map
      (fun s => s.completed) = some false ∧
    (get_license_by_id (handle_checkout_completed sampleDb c2Session true 500
        "licN" "KEY-N" "devN" "JN" false true).1 "licN").isSome = true ∧
    (get_device_for_license (handle_checkout_completed sampleDb c2Session true
        500 "licN" "KEY-N" "devN" "JN" false true).1 "licN" "D9").isSome
      = true := by
  have h := handle_checkout_completed_spec sampleDb c2Session 500 "licN"
    "KEY-N" "devN" "JN" false true "sess1" "proj1" sampleProject sampleSession
    sampleProduct (by decide) (by decide) (by decide) (by decide) (by decide)
    (by decide) (by decide) (by decide) (by decide) (by decide)
    (handle_checkout_completed sampleDb c2Session true 500 "licN" "KEY-N"
      "devN" "JN" false true).1
    (handle_checkout_completed sampleDb c2Session true 500 "licN" "KEY-N"
      "devN" "JN" false true).2.1
    (handle_checkout_completed sampleDb c2Session true 500 "licN" "KEY-N"
      "devN" "JN" false true).2.2 rfl
  refine ⟨?_, ?_, ?_⟩
  · simpa using h.2.2.2.2.1
  · rw [h.2.2.1]
    rfl
  · rw [show ("D9" : String) = sampleSession.device_id from rfl, h.2.2.2.1]
    rfl

/-- **C2 (code refutation).** The claim describes a compare-and-swap claim of
the PaymentSession (`try_claim_payment_session`) followed by writing the new
License's id into the session.  The handler in the source does neither: it
checks `payment_session.completed` with a plain read, creates the License
unconditionally afterwards, completes the session with
`mark_payment_session_completed` (which cannot carry a license id), and never
calls `set_payment_session_license`.  Concretely, one fully successful
delivery leaves the completed session with `license_id = NULL` — so the
subsequent `callback` visit, which needs the stored id, fails with 500 — even
though the License was created. -/
theorem checkout_completed_leaves_license_id_null :
    (get_payment_session (handle_checkout_completed sampleDb c2Session true 500
        "licN" "KEY-N" "devN" "JN" false false).1 "sess1").map
      (fun s => (s.completed, s.license_id)) = some (true, none) ∧
    (get_license_by_id (handle_checkout_completed sampleDb c2Session true 500
        "licN" "KEY-N" "devN" "JN" false false).1 "licN").isSome = true ∧
    (payment_callback (handle_checkout_completed sampleDb c2Session true 500
        "licN" "KEY-N" "devN" "JN" false false).1 "https://success.example"
        { session := "sess1" } 600 "rc1" "C1" (fun s => s)).2
      = .error (.Internal "License not found - payment may still be processing") := by
  refine ⟨by decide, by decide, by decide⟩

/-- **C3 (code refutation).** The claim says every webhook handler first
inserts a WebhookEvent row keyed on `(provider, event_id)`.  The checkout
handler performs no such insert on any input — the `webhook_events` table
after handling always equals the table before (the dedup helper
`try_record_webhook_event` has no caller) — and concretely a fresh successful
delivery leaves the table empty. -/
theorem handle_checkout_no_webhook_event :
    (∀ db session sig_valid tNow freshLicenseId freshLicenseKey freshDeviceId
        freshJti inc_fails mark_fails,
      (handle_checkout_completed db session sig_valid tNow freshLicenseId
        freshLicenseKey freshDeviceId freshJti inc_fails
        mark_fails).1.webhook_events = db.webhook_events) ∧
    (handle_checkout_completed sampleDb c2Session true 500 "licN" "KEY-N"
      "devN" "JN" false false).1.webhook_events = [] := by
  constructor
  · intro db session sig_valid tNow a b c d i m
    unfold handle_checkout_completed
    repeat' split <;> try rfl
  · decide
